import Mathlib

set_option maxRecDepth 8000

/-!
Shallow embedding of `src/NoribenSandbox.py` (the Noriben sandbox automation
driver).  Host-level command execution is modelled by a state that carries the
stream of process return codes the executed control-plane binaries will
report, the global `error_count`, and a trace of every command line issued
(tagged with the source location that built it).  Console output (`print`) has
no control-flow effect in the source and is not modelled.
-/

namespace Noriben

/-! ## Python string primitives used by the source -/

/-- Characters removed by Python `str.strip` (ASCII whitespace). -/
def isStripChar (c : Char) : Bool :=
  c == ' ' || c == '\t' || c == '\n' || c == '\r' || c == Char.ofNat 11 || c == Char.ofNat 12

/-- Python `str.strip()`. -/
def trimS (s : String) : String :=
  String.mk (((s.data.dropWhile isStripChar).reverse.dropWhile isStripChar).reverse)

/-- Does the second character list start with the first (the pattern)? -/
def chStarts : List Char → List Char → Bool
  | [], _ => true
  | _ :: _, [] => false
  | p :: ps, c :: cs => p == c && chStarts ps cs

/-- Python `s.startswith(pat)`. -/
def strStarts (s pat : String) : Bool := chStarts pat.data s.data

/-- Python `str.lower()` (ASCII range, which is all the source compares). -/
def lowerS (s : String) : String := String.mk (s.data.map Char.toLower)

/-- Fuel-driven worker for Python `str.split` with a non-empty separator:
leftmost, non-overlapping occurrences.  The fuel is always one more than the
length of the scanned text, which is sufficient since every step consumes at
least one character. -/
def splitFuel (sep : List Char) : Nat → List Char → List Char → List (List Char)
  | 0, s, cur => [cur.reverse ++ s]
  | fuel + 1, s, cur =>
    match s with
    | [] => [cur.reverse]
    | c :: rest =>
      if chStarts sep (c :: rest) then
        cur.reverse :: splitFuel sep fuel (List.drop sep.length (c :: rest)) []
      else
        splitFuel sep fuel rest (c :: cur)

/-- Python `s.split(sep)` for a non-empty separator (Python raises `ValueError`
on an empty one; the source only splits on non-empty literals). -/
def splitOnS (sep s : String) : List String :=
  if sep.data.isEmpty then [s]
  else (splitFuel sep.data (s.data.length + 1) s.data []).map String.mk

/-- Worker for Python substring containment. -/
def containsL (pat : List Char) : List Char → Bool
  | [] => chStarts pat []
  | c :: cs => chStarts pat (c :: cs) || containsL pat cs

/-- Python `pat in s`. -/
def containsStr (s pat : String) : Bool := containsL pat.data s.data

/-- Worker interleaving the pieces of a format template with the arguments. -/
def fmtGo : List String → List String → String
  | [], _ => ""
  | [p], _ => p
  | p :: ps, [] => p ++ fmtGo ps []
  | p :: ps, a :: rest => p ++ a ++ fmtGo ps rest

/-- Python positional `tpl.format(args...)` with bare placeholders, as the
source uses it (no brace escapes appear in the source templates; surplus
arguments are ignored, as in Python). -/
def pyFormat (tpl : String) (args : List String) : String :=
  fmtGo (splitOnS "\x7b\x7d" tpl) args

/-- Python str.join with a single-space separator. -/
def joinSpace : List String → String
  | [] => ""
  | [x] => x
  | x :: xs => x ++ " " ++ joinSpace xs

/-- External collaborator `os.path.dirname` on a POSIX host (the host OS is
outside the control of the source; the source itself notes it is unknown). -/
def posixDirname (s : String) : String :=
  let head := (s.data.reverse.dropWhile (fun c => !(c == '/'))).reverse
  if head.isEmpty then ""
  else if head.all (fun c => c == '/') then String.mk head
  else String.mk ((head.reverse.dropWhile (fun c => c == '/')).reverse)

/-- External collaborator `os.path.expanduser`.  Home-directory expansion
depends on host environment state that is out of scope; it is modelled as the
identity.  It is applied exactly where the source applies it. -/
def expanduser (s : String) : String := s

/-- Digit accumulator for the model of Python `int(...)`. -/
def digitsToNat : List Char → Option Nat → Option Nat
  | [], acc => acc
  | c :: cs, acc =>
    if c.val ≥ 48 && c.val ≤ 57 then
      match acc with
      | some n => digitsToNat cs (some (n * 10 + (c.val.toNat - 48)))
      | none => digitsToNat cs (some (c.val.toNat - 48))
    else none

/-- External `int(...)` as the source applies it to an already-stripped DSL
argument: an optional sign followed by decimal digits, `none` on `ValueError`. -/
def pyInt? (s : String) : Option Int :=
  match s.data with
  | [] => none
  | c :: rest =>
    if c == Char.ofNat 45 then (digitsToNat rest none).map (fun n => -(n : Int))
    else (digitsToNat s.data none).map (fun n => (n : Int))

/-- Whitespace for the model of `shlex.split`. -/
def isShlexWs (c : Char) : Bool := c == ' ' || c == '\t' || c == '\r' || c == '\n'

/-- Worker for the model of Python `shlex.split(line, posix=False)`: whitespace
tokenization where quoted groups keep their quote characters and are not split. -/
def shlexGo : List Char → List Char → Option Char → List String
  | [], cur, _ => if cur.isEmpty then [] else [String.mk cur.reverse]
  | c :: cs, cur, none =>
    if isShlexWs c then
      if cur.isEmpty then shlexGo cs [] none
      else String.mk cur.reverse :: shlexGo cs [] none
    else if c == Char.ofNat 34 || c == Char.ofNat 39 then shlexGo cs (c :: cur) (some c)
    else shlexGo cs (c :: cur) none
  | c :: cs, cur, some qc =>
    if c == qc then shlexGo cs (c :: cur) none else shlexGo cs (c :: cur) (some qc)

/-- External library `shlex.split(line, posix=False)` for well-formed inputs. -/
def shlexTokens (s : String) : List String := shlexGo s.data [] none

/-! ## Data model -/

/-- The two supported control planes (`vm_hypervisor` in the source; any other
value makes `run_file` exit with code 50 before doing anything, so the closed
variant captures every run that proceeds). -/
inductive Hypervisor where
  | vmw
  | vbox
  deriving Repr, DecidableEq

def Hypervisor.isVbox : Hypervisor → Bool
  | .vbox => true
  | .vmw => false

/-- Tag recording which source location built an issued command line. -/
inductive OpKind where
  | revert
  | poweroffPreRevert
  | restore
  | powerOn
  | stageCopy
  | updateCopyScript
  | updateCopyConfig
  | updateCopyVt
  | deleteFilter
  | detonate
  | postFileExists
  | postXcopy
  | postZipAdd
  | postExec
  | zipLogs
  | copyFromGuest
  | screenshot
  | stopVM
  | suspendVM
  deriving Repr, DecidableEq

/-- One issued host command: the source location that built it and the exact
command line handed to `execute`. -/
structure Entry where
  op : OpKind
  line : String
  deriving Repr, DecidableEq

/-- Execution state: the stream of return codes the spawned processes will
report (consumed front to back; an exhausted stream reports 0), the global
`error_count`, and the trace of issued commands. -/
structure St where
  codes : List Nat
  errorCount : Nat
  trace : List Entry
  deriving Repr, DecidableEq

/-- `execute(cmd)` (source lines 110–124): spawn the command, wait, return its
code.  The settle `time.sleep(2)` and the debug echo have no modelled effect. -/
def execute (op : OpKind) (cmd : String) (st : St) : Nat × St :=
  (st.codes.headD 0,
   { codes := st.codes.tail, errorCount := st.errorCount, trace := st.trace ++ [⟨op, cmd⟩] })

/-- `error_count += 1`. -/
def bump (st : St) : St := { st with errorCount := st.errorCount + 1 }

/-- How one call to `run_file` ends: `exited` is `sys.exit(code)` (the process
dies), `returned` is a Python `return code` back to the caller in `main`. -/
inductive RunOutcome where
  | exited (code : Nat)
  | returned (code : Nat)
  deriving Repr, DecidableEq

/-- Control flow between the stages of `run_file`: either continue with the
current value of the `return_code` variable, or end the call. -/
inductive Flow where
  | cont (rc : Nat) (st : St)
  | stop (o : RunOutcome) (st : St)

/-- The state carried by either constructor. -/
def Flow.state : Flow → St
  | .cont _ st => st
  | .stop _ st => st

/-- The `Noriben_host` configuration options `run_file` reads (read-only). -/
structure Config where
  vmrun : String
  vmx : String
  vm_snapshot : String
  vboxmanage : String
  vbox_uuid : String
  vm_user : String
  vm_pass : String
  guest_noriben_path : String
  guest_malware_path : String
  guest_python_path : String
  guest_log_path : String
  guest_zip_path : String
  guest_temp_zip : String
  procmon_config_path : String
  report_path_structure : String
  host_screenshot_path_structure : String
  timeout_seconds : String
  deriving Repr, DecidableEq

/-- The argparse options `run_file` and the directory loop consult. -/
structure Args where
  norevert : Bool
  update : Bool
  dontrunanything : Bool
  raw : Bool
  screenshot : Bool
  nolog : Bool
  shutdown : Bool
  suspend : Bool
  skip : Bool
  post : Option String
  deriving Repr, DecidableEq

/-- Process-wide context for a run: the loaded configuration, the selected
hypervisor, the globals `dontrun` and `debug`, and the out-of-scope host
filesystem facts the source queries (`file_exists` on the three updatable
collector files, the resolved host Noriben directory, and the post-exec script
file with its lines as the Python file iteration yields them, trailing newlines
included). -/
structure Ctx where
  cfg : Config
  hv : Hypervisor
  dontrun : Bool
  debug : Bool
  hostNoribenDir : String
  hostScriptExists : Bool
  hostConfigExists : Bool
  hostVtExists : Bool
  postFileExists : Bool
  postScriptLines : List String

/-! ## Command-line builders (the exact format strings of the source) -/

/-- Wrap in double quotes, as the "{}"-style quoted placeholders of the source do. -/
def quo (s : String) : String := "\"" ++ s ++ "\""

/-- Source line 182: `os.path.split(malware_file)[-1].split(".")[0]`. -/
def hostMalwareNameBase (mf : String) : String :=
  (splitOnS "." ((splitOnS "/" mf).getLastD "")).headD ""

/-- Source lines 190–192: `os.path.dirname(malware_file)`, defaulting to `.`. -/
def hostMalwarePath (mf : String) : String :=
  let d := posixDirname mf
  if d == "" then "." else d

/-- Source lines 183–189: the guest staging path for the sample. -/
def stagingFilename (cfg : Config) (dontrun : Bool) (magic_result mf : String) : String :=
  let base := hostMalwareNameBase mf
  if dontrun then cfg.guest_malware_path ++ base
  else if containsStr magic_result "DOS batch" then cfg.guest_malware_path ++ base ++ ".bat"
  else cfg.guest_malware_path ++ base ++ ".exe"

/-- Source line 180: `expanduser(config["guest_noriben_path"].format(vm_user))`. -/
def guestNoribenDir (cfg : Config) : String :=
  expanduser (pyFormat cfg.guest_noriben_path [cfg.vm_user])

/-- Source line 196. -/
def guestScriptPath (cfg : Config) : String := guestNoribenDir cfg ++ "\\Noriben.py"

/-- Source line 197. -/
def guestConfigPath (cfg : Config) : String := guestNoribenDir cfg ++ "\\Noriben.config"

/-- Source line 198. -/
def guestVtPath (cfg : Config) : String := guestNoribenDir cfg ++ "\\virustotal.api"

/-- Source line 207: `"{vmrun}" -T ws revertToSnapshot {vmx} "{snapshot}"`. -/
def revertCmdVmw (cfg : Config) : String :=
  quo cfg.vmrun ++ " -T ws revertToSnapshot " ++ expanduser cfg.vmx ++ " " ++
    quo (expanduser cfg.vm_snapshot)

/-- Source line 217: `"{vboxmanage}" controlvm {uuid} poweroff`. -/
def poweroffCmdVbox (cfg : Config) : String :=
  quo cfg.vboxmanage ++ " controlvm " ++ cfg.vbox_uuid ++ " poweroff"

/-- Source line 226: `"{vboxmanage}" snapshot {uuid} restore "{snapshot}"`. -/
def restoreCmdVbox (cfg : Config) : String :=
  quo cfg.vboxmanage ++ " snapshot " ++ cfg.vbox_uuid ++ " restore " ++
    quo (expanduser cfg.vm_snapshot)

/-- Source lines 233–236: the power-on command of the selected backend. -/
def startCmd (cfg : Config) : Hypervisor → String
  | .vmw => quo cfg.vmrun ++ " -T ws start " ++ expanduser cfg.vmx
  | .vbox => quo cfg.vboxmanage ++ " startvm " ++ cfg.vbox_uuid

/-- Source lines 250–257 (also reused by the `--update` copies at lines
280–288 etc.): copy a host file into the guest via the selected backend. -/
def copyToGuestCmd (cfg : Config) (hv : Hypervisor) (src dst : String) : String :=
  match hv with
  | .vmw =>
      quo cfg.vmrun ++ " -gu " ++ cfg.vm_user ++ " -gp " ++ cfg.vm_pass ++
        " copyFileFromHostToGuest " ++ expanduser cfg.vmx ++ " " ++ quo src ++ " " ++ quo dst
  | .vbox =>
      quo cfg.vboxmanage ++ " guestcontrol " ++ cfg.vbox_uuid ++ " copyto --username " ++
        cfg.vm_user ++ " --password " ++ cfg.vm_pass ++ " " ++ quo src ++ " " ++ quo dst

/-- Source lines 346–348: delete the Procmon filter file (built with `vmrun`
unconditionally, whichever backend is active). -/
def deleteFilterCmd (cfg : Config) : String :=
  quo cfg.vmrun ++ " -T ws -gu " ++ cfg.vm_user ++ " -gp " ++ cfg.vm_pass ++
    " deleteFileInGuest " ++ expanduser cfg.vmx ++ " " ++
    quo (pyFormat cfg.procmon_config_path [cfg.vm_user])

/-- Source lines 359–371: the per-backend guest-execution prefix `cmd_base`. -/
def cmdBase (cfg : Config) (hv : Hypervisor) (screenshot : Bool) : String :=
  match hv with
  | .vmw =>
      let active := if !screenshot then "-activeWindow" else ""
      quo cfg.vmrun ++ " -T ws -gu " ++ cfg.vm_user ++ " -gp " ++ cfg.vm_pass ++
        " runProgramInGuest " ++ expanduser cfg.vmx ++ " " ++ active ++ " -interactive"
  | .vbox =>
      quo cfg.vboxmanage ++ " guestcontrol " ++ cfg.vbox_uuid ++ " start --username " ++
        cfg.vm_user ++ " --password " ++ cfg.vm_pass

/-- Source lines 365–381: the full detonation command line that runs the
in-guest collector, with the `--cmd` sample argument unless `dontrun` and a
`-d` suffix in debug mode. -/
def detonateCmd (cfg : Config) (hv : Hypervisor) (screenshot dontrun debug : Bool)
    (filename : String) : String :=
  let base := cmdBase cfg hv screenshot
  let c :=
    match hv with
    | .vmw =>
        base ++ " " ++ quo cfg.guest_python_path ++ " " ++ quo (guestScriptPath cfg) ++
          " -t " ++ cfg.timeout_seconds ++ " --headless --output " ++
          quo cfg.guest_log_path ++ " "
    | .vbox =>
        base ++ " --exe " ++ quo cfg.guest_python_path ++ " -- " ++
          quo (guestScriptPath cfg) ++ " -t " ++ cfg.timeout_seconds ++
          " --headless --output " ++ quo cfg.guest_log_path ++ " "
  let c := if !dontrun then c ++ " --cmd " ++ quo filename ++ " " else c
  if debug then c ++ " -d" else c

/-- Source line 396: zip the whole guest log directory. -/
def zipCmd (cfg : Config) (cmd_base : String) : String :=
  cmd_base ++ " " ++ quo cfg.guest_zip_path ++ " -j " ++ quo cfg.guest_temp_zip ++ " " ++
    quo (cfg.guest_log_path ++ "\\\\*.*")

/-- Source line 403: the deterministic host report path. -/
def reportPath (cfg : Config) (mf : String) : String :=
  pyFormat cfg.report_path_structure [hostMalwarePath mf, hostMalwareNameBase mf]

/-- Source line 413: the deterministic host screenshot path. -/
def screenshotPath (cfg : Config) (mf : String) : String :=
  pyFormat cfg.host_screenshot_path_structure [hostMalwarePath mf, hostMalwareNameBase mf]

/-- Source lines 405–406: copy the report archive from the guest to the host
(built with `vmrun` unconditionally). -/
def copyFromGuestCmd (cfg : Config) (hostReportPath : String) : String :=
  quo cfg.vmrun ++ " -gu " ++ cfg.vm_user ++ " -gp " ++ cfg.vm_pass ++
    " copyFileFromGuestToHost " ++ cfg.vmx ++ " " ++ quo cfg.guest_temp_zip ++ " " ++
    quo hostReportPath

/-- Source lines 414–415: capture the guest desktop (built with `vmrun`
unconditionally). -/
def screenshotCmd (cfg : Config) (hostShotPath : String) : String :=
  quo cfg.vmrun ++ " -gu " ++ cfg.vm_user ++ " -gp " ++ cfg.vm_pass ++ " captureScreen " ++
    cfg.vmx ++ " " ++ quo hostShotPath

/-- Source line 424: power the guest down (built with `vmrun` unconditionally). -/
def stopCmd (cfg : Config) : String :=
  quo cfg.vmrun ++ " -T ws stop " ++ cfg.vmx

/-- Source line 432: suspend the guest (built with `vmrun` unconditionally). -/
def suspendCmd (cfg : Config) : String :=
  quo cfg.vmrun ++ " -T ws suspend " ++ cfg.vmx

/-- Source lines 549–550: `fileExistsInGuest` probe of `copy_file_to_zip`
(built with `vmrun` unconditionally). -/
def fileExistsCmd (cfg : Config) (filename : String) : String :=
  quo cfg.vmrun ++ " -gu " ++ cfg.vm_user ++ " -gp " ++ cfg.vm_pass ++
    " fileExistsInGuest " ++ expanduser cfg.vmx ++ " " ++ quo filename

/-- Source line 557: in-guest xcopy into the log folder. -/
def xcopyCmd (cfg : Config) (cmd_base filename : String) : String :=
  cmd_base ++ " C:\\\\windows\\\\system32\\\\xcopy.exe " ++ quo filename ++ " " ++
    quo cfg.guest_log_path

/-- Source line 565: append one file to the guest-side archive. -/
def zipAddCmd (cfg : Config) (cmd_base filename : String) : String :=
  cmd_base ++ " " ++ quo cfg.guest_zip_path ++ " -j " ++ quo cfg.guest_temp_zip ++ " " ++
    quo filename

/-! ## copy_file_to_zip and the post-exec script interpreter -/

/-- Source lines 534–573: `copy_file_to_zip`.  Three sub-steps; the first
failure increments `error_count` and aborts only this collect step. -/
def copy_file_to_zip (cfg : Config) (cmd_base filename : String) (st : St) : Nat × St :=
  let r1 := execute .postFileExists (fileExistsCmd cfg filename) st
  if r1.1 != 0 then (r1.1, bump r1.2)
  else
    let r2 := execute .postXcopy (xcopyCmd cfg cmd_base filename) r1.2
    if r2.1 != 0 then (r2.1, bump r2.2)
    else
      let r3 := execute .postZipAdd (zipAddCmd cfg cmd_base filename) r2.2
      if r3.1 != 0 then (r3.1, bump r3.2) else (0, r3.2)

/-- Source lines 485–532: the line loop of `run_postexec_script`.  The second
string argument is the current value of the `source_path` variable (initialised
to the empty string at line 483); note that the `collect` branch of the source calls
`copy_file_to_zip` even when extracting the path raised `IndexError` (there is
no `continue` in its handler), passing the stale previous `source_path`. -/
def runPostexec (cfg : Config) (cmd_base : String) :
    List String → String → St → St
  | [], _, st => st
  | line :: rest, source_path, st =>
    if line.data.length ≤ 1 then runPostexec cfg cmd_base rest source_path st
    else if strStarts line "#" then runPostexec cfg cmd_base rest source_path st
    else if strStarts (lowerS line) "collect " then
      let sp :=
        match (splitOnS "collect " line).get? 1 with
        | some s => trimS s
        | none => source_path
      runPostexec cfg cmd_base rest sp (copy_file_to_zip cfg cmd_base sp st).2
    else if strStarts line "sleep " then
      match (splitOnS "sleep " line).get? 1 with
      | none => runPostexec cfg cmd_base rest source_path st
      | some s =>
        match pyInt? (trimS s) with
        | none => runPostexec cfg cmd_base rest source_path st
        | some _ => runPostexec cfg cmd_base rest source_path st
    else if strStarts line "exec " || strStarts line "execwait " then
      let items := shlexTokens line
      match items.get? 1 with
      | none => runPostexec cfg cmd_base rest source_path st
      | some cmd_path =>
        let cmd_type := items.headD ""
        let cmd_args := joinSpace (items.drop 2)
        let nowait := if cmd_type == "exec" then "-noWait" else ""
        let r := execute .postExec
          (cmd_base ++ " " ++ nowait ++ " " ++ quo cmd_path ++ " " ++ quo cmd_args) st
        runPostexec cfg cmd_base rest source_path r.2
    else runPostexec cfg cmd_base rest source_path st

/-! ## The per-sample lifecycle (`run_file`, source lines 160–443) -/

/-- Source lines 226–230: VirtualBox snapshot restore after the power-off
attempt; non-zero exits the process. -/
def vboxRestoreStep (cfg : Config) (st : St) : Flow :=
  let r := execute .restore (restoreCmdVbox cfg) st
  if r.1 != 0 then .stop (.exited r.1) r.2 else .cont r.1 r.2

/-- Source lines 205–230: the revert stage.  Skipped when `--norevert` or no
snapshot is configured.  The primary backend exits the process on any non-zero
code; the secondary first attempts a power-off, treating code 1 (guest already
off) as normal, exits on any other non-zero code, then restores. -/
def revertStage (cfg : Config) (hv : Hypervisor) (norevert : Bool) (st : St) : Flow :=
  if !norevert && cfg.vm_snapshot != "NO_SNAPSHOT_SPECIFIED" then
    match hv with
    | .vmw =>
      let r := execute .revert (revertCmdVmw cfg) st
      if r.1 != 0 then .stop (.exited r.1) r.2 else .cont r.1 r.2
    | .vbox =>
      let r := execute .poweroffPreRevert (poweroffCmdVbox cfg) st
      if r.1 == 1 then vboxRestoreStep cfg r.2
      else if r.1 != 0 then .stop (.exited r.1) r.2
      else vboxRestoreStep cfg r.2
  else .cont 0 st

/-- Source lines 232–247: power the guest on.  A non-zero code is a hard
failure (increment `error_count`, return the code) except code 1 on the
secondary backend, which the source documents as "a VM that is already
running" and ignores. -/
def powerOnStage (cfg : Config) (hv : Hypervisor) (st : St) : Flow :=
  let r := execute .powerOn (startCmd cfg hv) st
  if r.1 != 0 then
    if r.1 == 1 && hv.isVbox then .cont r.1 r.2
    else .stop (.returned r.1) (bump r.2)
  else .cont r.1 r.2

/-- Source lines 249–263: copy the sample into the guest at its derived
staging path; non-zero increments `error_count` and returns the code. -/
def stageCopyStage (cfg : Config) (hv : Hypervisor) (src dst : String) (st : St) : Flow :=
  let r := execute .stageCopy (copyToGuestCmd cfg hv src dst) st
  if r.1 != 0 then .stop (.returned r.1) (bump r.2) else .cont r.1 r.2

/-- Source lines 298–314: the `--update` copy of `Noriben.config`; a missing
host file or a failed copy only prints (the code of the copy threads through the
`return_code` variable). -/
def updateConfigStep (cfg : Config) (hv : Hypervisor) (hostDir : String)
    (hConfig : Bool) (r : Nat × St) : Nat × St :=
  if hConfig then
    execute .updateCopyConfig
      (copyToGuestCmd cfg hv (pyFormat (hostDir ++ "/Noriben.config") [cfg.vm_user])
        (guestConfigPath cfg)) r.2
  else r

/-- Source lines 316–333: the `--update` copy of `virustotal.api`; a missing
host file is silently accepted and a failed copy only prints. -/
def updateVtStep (cfg : Config) (hv : Hypervisor) (hostDir : String)
    (hVt : Bool) (r : Nat × St) : Nat × St :=
  if hVt then
    execute .updateCopyVt
      (copyToGuestCmd cfg hv (pyFormat (hostDir ++ "/virustotal.api") [cfg.vm_user])
        (guestVtPath cfg)) r.2
  else r

/-- Source lines 268–333: the `--update` stage.  A missing host `Noriben.py`
increments `error_count` and returns the *previous* `return_code`; failed
copies only print and continue, threading their code through the
`return_code` variable. -/
def updateStage (cfg : Config) (hv : Hypervisor) (hostDir : String)
    (hScript hConfig hVt : Bool) (doUpdate : Bool) (rc0 : Nat) (st : St) : Flow :=
  if !doUpdate then .cont rc0 st
  else if hScript then
    let r := updateVtStep cfg hv hostDir hVt (updateConfigStep cfg hv hostDir hConfig
      (execute .updateCopyScript
        (copyToGuestCmd cfg hv (pyFormat (hostDir ++ "/Noriben.py") [cfg.vm_user])
          (guestScriptPath cfg)) st))
    .cont r.1 r.2
  else .stop (.returned rc0) (bump st)

/-- Source lines 345–356: the `--raw` Procmon-filter deletion; a failure is
allowed (the filter may be absent) but increments `error_count`. -/
def rawStep (cfg : Config) (raw : Bool) (st : St) : St :=
  if raw then
    let r := execute .deleteFilter (deleteFilterCmd cfg) st
    if r.1 != 0 then bump r.2 else r.2
  else st

/-- Source lines 384–389: issue the detonation command; non-zero increments
`error_count` and returns the code. -/
def detonateStep (cmd : String) (st : St) : Flow :=
  let r := execute .detonate cmd st
  if r.1 != 0 then .stop (.returned r.1) (bump r.2) else .cont r.1 r.2

/-- Source line 392: `args.post and file_exists(args.post)`. -/
def postRequested (args : Args) (postExists : Bool) : Bool :=
  (match args.post with
   | none => false
   | some p => p != "") && postExists

/-- Source lines 395–401: zip the guest log directory; a failure only sets
`zip_failed` (no `error_count` increment). -/
def zipStep (cfg : Config) (cmd_base : String) (st : St) : Bool × St :=
  let r := execute .zipLogs (zipCmd cfg cmd_base) st
  (r.1 != 0, r.2)

/-- Source lines 404–410: copy the archive back unless `--nolog` or the zip
failed; a failure only prints. -/
def copyBackStep (cfg : Config) (nolog zip_failed : Bool) (hostReportPath : String)
    (st : St) : St :=
  if !nolog && !zip_failed then
    (execute .copyFromGuest (copyFromGuestCmd cfg hostReportPath) st).2
  else st

/-- Source lines 412–421: optional screenshot; a failure only prints. -/
def screenshotStep (cfg : Config) (shot : Bool) (hostShotPath : String) (st : St) : St :=
  if shot then (execute .screenshot (screenshotCmd cfg hostShotPath) st).2 else st

/-- Source lines 423–429: optional shutdown; non-zero increments `error_count`
and returns the code. -/
def shutdownStep (cfg : Config) (flag : Bool) (st : St) : Flow :=
  if flag then
    let r := execute .stopVM (stopCmd cfg) st
    if r.1 != 0 then .stop (.returned r.1) (bump r.2) else .cont r.1 r.2
  else .cont 0 st

/-- Source lines 431–437: optional suspend; non-zero increments `error_count`
and returns the code. -/
def suspendStep (cfg : Config) (flag : Bool) (st : St) : Flow :=
  if flag then
    let r := execute .suspendVM (suspendCmd cfg) st
    if r.1 != 0 then .stop (.returned r.1) (bump r.2) else .cont r.1 r.2
  else .cont 0 st

/-- Source lines 423–443: the optional shutdown, the optional suspend, and the
final `return 0`. -/
def finalizeSteps (cfg : Config) (sd su : Bool) (st : St) : RunOutcome × St :=
  match shutdownStep cfg sd st with
  | .stop o st => (o, st)
  | .cont _ st =>
    match suspendStep cfg su st with
    | .stop o st => (o, st)
    | .cont _ st => (.returned 0, st)

/-- Source lines 392–443: everything after a successful detonation — the
post-exec script, the log zip, the archive copy-back, the screenshot, and the
power-state finalization. -/
def runCollectPhase (ctx : Ctx) (args : Args) (mf cmd_base : String) (st : St) :
    RunOutcome × St :=
  let st :=
    if postRequested args ctx.postFileExists then
      runPostexec ctx.cfg cmd_base ctx.postScriptLines "" st
    else st
  let z := zipStep ctx.cfg cmd_base st
  let st := copyBackStep ctx.cfg args.nolog z.1 (reportPath ctx.cfg mf) z.2
  let st := screenshotStep ctx.cfg args.screenshot (screenshotPath ctx.cfg mf) st
  finalizeSteps ctx.cfg args.shutdown args.suspend st

/-- Source lines 268–443: everything after a successful staging copy, from the
`--update` stage through the final `return 0`.  The `rc` argument is the value
of the `return_code` variable (0 after a successful staging copy). -/
def runFromUpdate (ctx : Ctx) (args : Args) (mf filename : String) (rc : Nat)
    (st : St) : RunOutcome × St :=
  match updateStage ctx.cfg ctx.hv ctx.hostNoribenDir ctx.hostScriptExists
      ctx.hostConfigExists ctx.hostVtExists args.update rc st with
  | .stop o st => (o, st)
  | .cont rc st =>
    if args.dontrunanything then (.exited rc, st)
    else
      let st := rawStep ctx.cfg args.raw st
      let cmd_base := cmdBase ctx.cfg ctx.hv args.screenshot
      match detonateStep
          (detonateCmd ctx.cfg ctx.hv args.screenshot ctx.dontrun ctx.debug filename) st with
      | .stop o st => (o, st)
      | .cont _ st => runCollectPhase ctx args mf cmd_base st

/-- Source lines 160–443: `run_file`, the lifecycle of one sample. -/
def run_file (ctx : Ctx) (args : Args) (magic_result malware_file : String)
    (st : St) : RunOutcome × St :=
  let filename := stagingFilename ctx.cfg ctx.dontrun magic_result malware_file
  match revertStage ctx.cfg ctx.hv args.norevert st with
  | .stop o st => (o, st)
  | .cont _ st =>
    match powerOnStage ctx.cfg ctx.hv st with
    | .stop o st => (o, st)
    | .cont _ st =>
      match stageCopyStage ctx.cfg ctx.hv malware_file filename st with
      | .stop o st => (o, st)
      | .cont rc st => runFromUpdate ctx args malware_file filename rc st

/-! ## The directory loop of the batch controller (`main`, source lines 741–758) -/

/-- One enumerated candidate file: its path, the magic classification the
external classifier reports for it, and whether a report artifact already
exists for it on the host (the `--skip` probe, an external filesystem fact). -/
structure Sample where
  name : String
  magic : String
  reportExists : Bool
  deriving Repr, DecidableEq

/-- How the directory loop ends: the list was exhausted, or the process exited
(`sys.exit` from the loop itself or from inside `run_file`). -/
inductive BatchOutcome where
  | completed
  | exited (code : Nat)
  deriving Repr, DecidableEq

/-- Source line 752: the type pre-filter of directory mode — a truthy magic
string that starts with `PE32` and does not contain `DLL`. -/
def dirFilterAccepts (m : String) : Bool :=
  m != "" && strStarts m "PE32" && !containsStr m "DLL"

/-- Source lines 741–758: the per-file loop of directory mode.  Before each
sample the error count is compared with the tolerance (`sys.exit(100)` once
reached); `--skip` files with an existing report are passed over; only
classifications accepted by the pre-filter enter `run_file`. -/
def processFiles (ctx : Ctx) (args : Args) (tol : Nat) :
    List Sample → St → BatchOutcome × St
  | [], st => (.completed, st)
  | s :: rest, st =>
    if tol ≤ st.errorCount then (.exited 100, st)
    else if args.skip && s.reportExists then processFiles ctx args tol rest st
    else if dirFilterAccepts s.magic then
      match run_file ctx args s.magic s.name st with
      | (.exited c, st') => (.exited c, st')
      | (.returned _, st') => processFiles ctx args tol rest st'
    else processFiles ctx args tol rest st

/-! ## Specification-level predicates -/

/-- The source locations whose commands can be issued before the
`--dontrunanything` early exit (revert, power-on, staging, `--update` copies):
notably, `detonate` is not among them. -/
def preDetOps : List OpKind := [.revert, .poweroffPreRevert, .restore, .powerOn, .stageCopy,
  .updateCopyScript, .updateCopyConfig, .updateCopyVt]

/-- The second state was reached from the first without decreasing the error
count and by only appending commands whose tag satisfies `ops`. -/
def StepOK (ops : OpKind → Prop) (st st' : St) : Prop :=
  st.errorCount ≤ st'.errorCount ∧ ∃ t, st'.trace = st.trace ++ t ∧ ∀ e ∈ t, ops e.op

/-- Every pending return code is zero: every spawned command succeeds. -/
def AllZero (l : List Nat) : Prop := ∀ c ∈ l, c = 0

/-- The string ends with the given text. -/
def hasSuffix (suf s : String) : Prop := ∃ pre, s = pre ++ suf

/-- The command line invokes the control binary `bin` (every command template of the source opens with the quoted binary path). -/
def usesBinary (bin cmd : String) : Prop := ∃ rest, cmd = quo bin ++ rest

/-- The status code each backend control binary reports when `powerOn` is
issued against a guest that is already running.  For the secondary backend it
is taken from the source (the comment at lines 240–243 documents code 1 as
"the standard response for a VBox VM that is already running").  Modelled from
the spec: the binary of the primary backend is external to this repository, so its
already-running code does not appear in the source; the spec requires
`powerOn()` on a running guest to normalize to Success on every backend, and
under the handling in the source (any non-zero primary code is a hard failure) that
forces code 0. -/
def alreadyRunningCode : Hypervisor → Nat
  | .vbox => 1
  | .vmw => 0

/-! ## Concrete fixtures for witnesses and counterexamples -/

/-- A concrete configuration with distinct binary paths for the two backends. -/
def cfg0 : Config := {
  vmrun := "VMRUN", vmx := "box.vmx", vm_snapshot := "snap",
  vboxmanage := "VBOX", vbox_uuid := "uuid1", vm_user := "u", vm_pass := "p",
  guest_noriben_path := "C:\\Users\\\x7b\x7d\\Desktop", guest_malware_path := "C:\\mal\\",
  guest_python_path := "C:\\python\\python.exe", guest_log_path := "C:\\logs",
  guest_zip_path := "C:\\zip.exe", guest_temp_zip := "C:\\tmp.zip",
  procmon_config_path := "C:\\Users\\\x7b\x7d\\procmon.pmc",
  report_path_structure := "\x7b\x7d/\x7b\x7d_NoribenReport.zip",
  host_screenshot_path_structure := "\x7b\x7d/\x7b\x7d.png",
  timeout_seconds := "300" }

/-- A concrete context selecting the primary backend. -/
def ctx0 : Ctx := {
  cfg := cfg0, hv := .vmw, dontrun := false, debug := false,
  hostNoribenDir := "/opt/noriben", hostScriptExists := true, hostConfigExists := true,
  hostVtExists := false, postFileExists := false, postScriptLines := [] }

/-- Baseline arguments: revert skipped, no optional stages requested. -/
def args0 : Args := {
  norevert := true, update := false, dontrunanything := false,
  raw := false, screenshot := false, nolog := false, shutdown := false,
  suspend := false, skip := false, post := none }

/-! ## Basic lemmas about the step relation -/

theorem stepOK_refl (ops : OpKind → Prop) (st : St) : StepOK ops st st :=
  ⟨Nat.le_refl _, [], (List.append_nil _).symm, by simp⟩

theorem stepOK_trans {ops : OpKind → Prop} {a b c : St}
    (h1 : StepOK ops a b) (h2 : StepOK ops b c) : StepOK ops a c := by
  obtain ⟨m1, t1, e1, f1⟩ := h1
  obtain ⟨m2, t2, e2, f2⟩ := h2
  refine ⟨Nat.le_trans m1 m2, t1 ++ t2, ?_, ?_⟩
  · rw [e2, e1, List.append_assoc]
  · intro e he
    rcases List.mem_append.1 he with h | h
    · exact f1 e h
    · exact f2 e h

theorem stepOK_execute (ops : OpKind → Prop) (op : OpKind) (cmd : String) (st : St)
    (h : ops op) : StepOK ops st (execute op cmd st).2 := by
  refine ⟨Nat.le_refl _, [⟨op, cmd⟩], rfl, ?_⟩
  intro e he
  simp only [List.mem_singleton] at he
  rw [he]
  exact h

theorem stepOK_bump (ops : OpKind → Prop) (st : St) : StepOK ops st (bump st) :=
  ⟨Nat.le_succ _, [], (List.append_nil _).symm, by simp⟩

theorem stepOK_mono {ops ops' : OpKind → Prop} {st st' : St}
    (himp : ∀ o, ops o → ops' o) (h : StepOK ops st st') : StepOK ops' st st' := by
  obtain ⟨m, t, e, f⟩ := h
  exact ⟨m, t, e, fun x hx => himp x.op (f x hx)⟩

/-! ## Step lemmas for each lifecycle stage -/

theorem vboxRestoreStep_ok (ops : OpKind → Prop) (h : ops .restore) (cfg : Config)
    (st : St) : StepOK ops st (vboxRestoreStep cfg st).state := by
  unfold vboxRestoreStep
  dsimp only
  split <;> exact stepOK_execute ops .restore _ st h

theorem revertStage_ok (ops : OpKind → Prop) (h1 : ops .revert)
    (h2 : ops .poweroffPreRevert) (h3 : ops .restore) (cfg : Config) (hv : Hypervisor)
    (nr : Bool) (st : St) : StepOK ops st (revertStage cfg hv nr st).state := by
  unfold revertStage
  cases hv
  · dsimp only
    split
    · split
      · exact stepOK_execute ops .revert _ st h1
      · exact stepOK_execute ops .revert _ st h1
    · exact stepOK_refl ops st
  · dsimp only
    split
    · split
      · exact stepOK_trans (stepOK_execute ops .poweroffPreRevert _ st h2)
          (vboxRestoreStep_ok ops h3 cfg _)
      · split
        · exact stepOK_execute ops .poweroffPreRevert _ st h2
        · exact stepOK_trans (stepOK_execute ops .poweroffPreRevert _ st h2)
            (vboxRestoreStep_ok ops h3 cfg _)
    · exact stepOK_refl ops st

theorem powerOnStage_ok (ops : OpKind → Prop) (h : ops .powerOn) (cfg : Config)
    (hv : Hypervisor) (st : St) : StepOK ops st (powerOnStage cfg hv st).state := by
  unfold powerOnStage
  dsimp only
  split
  · split
    · exact stepOK_execute ops .powerOn _ st h
    · exact stepOK_trans (stepOK_execute ops .powerOn _ st h) (stepOK_bump ops _)
  · exact stepOK_execute ops .powerOn _ st h

theorem stageCopyStage_ok (ops : OpKind → Prop) (h : ops .stageCopy) (cfg : Config)
    (hv : Hypervisor) (src dst : String) (st : St) :
    StepOK ops st (stageCopyStage cfg hv src dst st).state := by
  unfold stageCopyStage
  dsimp only
  split
  · exact stepOK_trans (stepOK_execute ops .stageCopy _ st h) (stepOK_bump ops _)
  · exact stepOK_execute ops .stageCopy _ st h

theorem updateConfigStep_ok (ops : OpKind → Prop) (h : ops .updateCopyConfig)
    (cfg : Config) (hv : Hypervisor) (hostDir : String) (hc : Bool) (r : Nat × St) :
    StepOK ops r.2 (updateConfigStep cfg hv hostDir hc r).2 := by
  unfold updateConfigStep
  split
  · exact stepOK_execute ops .updateCopyConfig _ r.2 h
  · exact stepOK_refl ops r.2

theorem updateVtStep_ok (ops : OpKind → Prop) (h : ops .updateCopyVt)
    (cfg : Config) (hv : Hypervisor) (hostDir : String) (hvt : Bool) (r : Nat × St) :
    StepOK ops r.2 (updateVtStep cfg hv hostDir hvt r).2 := by
  unfold updateVtStep
  split
  · exact stepOK_execute ops .updateCopyVt _ r.2 h
  · exact stepOK_refl ops r.2

theorem updateStage_ok (ops : OpKind → Prop) (h1 : ops .updateCopyScript)
    (h2 : ops .updateCopyConfig) (h3 : ops .updateCopyVt) (cfg : Config)
    (hv : Hypervisor) (hostDir : String) (hs hc hvt du : Bool) (rc0 : Nat) (st : St) :
    StepOK ops st (updateStage cfg hv hostDir hs hc hvt du rc0 st).state := by
  unfold updateStage
  dsimp only
  split
  · exact stepOK_refl ops st
  · split
    · exact stepOK_trans (stepOK_execute ops .updateCopyScript _ st h1)
        (stepOK_trans (updateConfigStep_ok ops h2 cfg hv hostDir hc _)
          (updateVtStep_ok ops h3 cfg hv hostDir hvt _))
    · exact stepOK_bump ops st

theorem rawStep_ok (ops : OpKind → Prop) (h : ops .deleteFilter) (cfg : Config)
    (raw : Bool) (st : St) : StepOK ops st (rawStep cfg raw st) := by
  unfold rawStep
  dsimp only
  split
  · split
    · exact stepOK_trans (stepOK_execute ops .deleteFilter _ st h) (stepOK_bump ops _)
    · exact stepOK_execute ops .deleteFilter _ st h
  · exact stepOK_refl ops st

theorem detonateStep_ok (ops : OpKind → Prop) (h : ops .detonate) (cmd : String)
    (st : St) : StepOK ops st (detonateStep cmd st).state := by
  unfold detonateStep
  dsimp only
  split
  · exact stepOK_trans (stepOK_execute ops .detonate _ st h) (stepOK_bump ops _)
  · exact stepOK_execute ops .detonate _ st h

theorem copy_file_to_zip_ok (ops : OpKind → Prop) (h1 : ops .postFileExists)
    (h2 : ops .postXcopy) (h3 : ops .postZipAdd) (cfg : Config) (cb fn : String)
    (st : St) : StepOK ops st (copy_file_to_zip cfg cb fn st).2 := by
  unfold copy_file_to_zip
  dsimp only
  split
  · exact stepOK_trans (stepOK_execute ops .postFileExists _ st h1) (stepOK_bump ops _)
  · split
    · exact stepOK_trans (stepOK_execute ops .postFileExists _ st h1)
        (stepOK_trans (stepOK_execute ops .postXcopy _ _ h2) (stepOK_bump ops _))
    · split
      · exact stepOK_trans (stepOK_execute ops .postFileExists _ st h1)
          (stepOK_trans (stepOK_execute ops .postXcopy _ _ h2)
            (stepOK_trans (stepOK_execute ops .postZipAdd _ _ h3) (stepOK_bump ops _)))
      · exact stepOK_trans (stepOK_execute ops .postFileExists _ st h1)
          (stepOK_trans (stepOK_execute ops .postXcopy _ _ h2)
            (stepOK_execute ops .postZipAdd _ _ h3))

theorem runPostexec_ok (ops : OpKind → Prop) (h1 : ops .postFileExists)
    (h2 : ops .postXcopy) (h3 : ops .postZipAdd) (h4 : ops .postExec) (cfg : Config)
    (cb : String) (lines : List String) :
    ∀ (sp : String) (st : St), StepOK ops st (runPostexec cfg cb lines sp st) := by
  induction lines with
  | nil => intro sp st; exact stepOK_refl ops st
  | cons line rest ih =>
    intro sp st
    rw [runPostexec]
    split
    · exact ih sp st
    · split
      · exact ih sp st
      · split
        · exact stepOK_trans (copy_file_to_zip_ok ops h1 h2 h3 cfg cb _ st) (ih _ _)
        · split
          · split
            · exact ih sp st
            · split
              · exact ih sp st
              · exact ih sp st
          · split
            · dsimp only
              split
              · exact ih sp st
              · exact stepOK_trans (stepOK_execute ops .postExec _ st h4) (ih sp _)
            · exact ih sp st

theorem zipStep_ok (ops : OpKind → Prop) (h : ops .zipLogs) (cfg : Config)
    (cb : String) (st : St) : StepOK ops st (zipStep cfg cb st).2 :=
  stepOK_execute ops .zipLogs _ st h

theorem copyBackStep_ok (ops : OpKind → Prop) (h : ops .copyFromGuest) (cfg : Config)
    (nolog zf : Bool) (p : String) (st : St) :
    StepOK ops st (copyBackStep cfg nolog zf p st) := by
  unfold copyBackStep
  split
  · exact stepOK_execute ops .copyFromGuest _ st h
  · exact stepOK_refl ops st

theorem screenshotStep_ok (ops : OpKind → Prop) (h : ops .screenshot) (cfg : Config)
    (shot : Bool) (p : String) (st : St) :
    StepOK ops st (screenshotStep cfg shot p st) := by
  unfold screenshotStep
  split
  · exact stepOK_execute ops .screenshot _ st h
  · exact stepOK_refl ops st

theorem shutdownStep_ok (ops : OpKind → Prop) (h : ops .stopVM) (cfg : Config)
    (flag : Bool) (st : St) : StepOK ops st (shutdownStep cfg flag st).state := by
  unfold shutdownStep
  dsimp only
  split
  · split
    · exact stepOK_trans (stepOK_execute ops .stopVM _ st h) (stepOK_bump ops _)
    · exact stepOK_execute ops .stopVM _ st h
  · exact stepOK_refl ops st

theorem suspendStep_ok (ops : OpKind → Prop) (h : ops .suspendVM) (cfg : Config)
    (flag : Bool) (st : St) : StepOK ops st (suspendStep cfg flag st).state := by
  unfold suspendStep
  dsimp only
  split
  · split
    · exact stepOK_trans (stepOK_execute ops .suspendVM _ st h) (stepOK_bump ops _)
    · exact stepOK_execute ops .suspendVM _ st h
  · exact stepOK_refl ops st

/-! ## Composite step lemmas -/

theorem finalizeSteps_ok (cfg : Config) (sd su : Bool) (st : St) :
    StepOK (fun _ => True) st (finalizeSteps cfg sd su st).2 := by
  unfold finalizeSteps
  have hS := shutdownStep_ok (fun _ => True) trivial cfg sd st
  cases hs : shutdownStep cfg sd st with
  | stop o st1 =>
    rw [hs] at hS
    exact hS
  | cont rc st1 =>
    rw [hs] at hS
    dsimp only [Flow.state] at hS
    dsimp only
    have hU := suspendStep_ok (fun _ => True) trivial cfg su st1
    cases hu : suspendStep cfg su st1 with
    | stop o st2 =>
      rw [hu] at hU
      exact stepOK_trans hS hU
    | cont rc2 st2 =>
      rw [hu] at hU
      exact stepOK_trans hS hU

theorem runCollectPhase_ok (ctx : Ctx) (args : Args) (mf cb : String) (st : St) :
    StepOK (fun _ => True) st (runCollectPhase ctx args mf cb st).2 := by
  unfold runCollectPhase
  dsimp only
  refine stepOK_trans ?_ (stepOK_trans (zipStep_ok (fun _ => True) trivial ctx.cfg cb _)
    (stepOK_trans (copyBackStep_ok (fun _ => True) trivial ctx.cfg args.nolog _ _ _)
      (stepOK_trans (screenshotStep_ok (fun _ => True) trivial ctx.cfg args.screenshot _ _)
        (finalizeSteps_ok ctx.cfg args.shutdown args.suspend _))))
  split
  · exact runPostexec_ok (fun _ => True) trivial trivial trivial trivial ctx.cfg cb
      ctx.postScriptLines "" st
  · exact stepOK_refl (fun _ => True) st

theorem runFromUpdate_ok (ctx : Ctx) (args : Args) (mf fn : String) (rc : Nat)
    (st : St) : StepOK (fun _ => True) st (runFromUpdate ctx args mf fn rc st).2 := by
  unfold runFromUpdate
  have hU := updateStage_ok (fun _ => True) trivial trivial trivial ctx.cfg ctx.hv
    ctx.hostNoribenDir ctx.hostScriptExists ctx.hostConfigExists ctx.hostVtExists
    args.update rc st
  cases hu : updateStage ctx.cfg ctx.hv ctx.hostNoribenDir ctx.hostScriptExists
      ctx.hostConfigExists ctx.hostVtExists args.update rc st with
  | stop o st1 =>
    rw [hu] at hU
    exact hU
  | cont rc1 st1 =>
    rw [hu] at hU
    dsimp only [Flow.state] at hU
    dsimp only
    split
    · exact hU
    · refine stepOK_trans hU (stepOK_trans
        (rawStep_ok (fun _ => True) trivial ctx.cfg args.raw st1) ?_)
      have hD := detonateStep_ok (fun _ => True) trivial
        (detonateCmd ctx.cfg ctx.hv args.screenshot ctx.dontrun ctx.debug fn)
        (rawStep ctx.cfg args.raw st1)
      cases hd : detonateStep
          (detonateCmd ctx.cfg ctx.hv args.screenshot ctx.dontrun ctx.debug fn)
          (rawStep ctx.cfg args.raw st1) with
      | stop o st2 =>
        rw [hd] at hD
        exact hD
      | cont rc2 st2 =>
        rw [hd] at hD
        dsimp only [Flow.state] at hD
        dsimp only
        exact stepOK_trans hD (runCollectPhase_ok ctx args mf _ st2)

theorem run_file_ok (ctx : Ctx) (args : Args) (m mf : String) (st : St) :
    StepOK (fun _ => True) st (run_file ctx args m mf st).2 := by
  unfold run_file
  have hR := revertStage_ok (fun _ => True) trivial trivial trivial ctx.cfg ctx.hv
    args.norevert st
  cases hr : revertStage ctx.cfg ctx.hv args.norevert st with
  | stop o st1 =>
    rw [hr] at hR
    exact hR
  | cont rc1 st1 =>
    rw [hr] at hR
    dsimp only [Flow.state] at hR
    dsimp only
    have hP := powerOnStage_ok (fun _ => True) trivial ctx.cfg ctx.hv st1
    cases hp : powerOnStage ctx.cfg ctx.hv st1 with
    | stop o st2 =>
      rw [hp] at hP
      exact stepOK_trans hR hP
    | cont rc2 st2 =>
      rw [hp] at hP
      dsimp only [Flow.state] at hP
      dsimp only
      have hC := stageCopyStage_ok (fun _ => True) trivial ctx.cfg ctx.hv mf
        (stagingFilename ctx.cfg ctx.dontrun m mf) st2
      cases hc : stageCopyStage ctx.cfg ctx.hv mf
          (stagingFilename ctx.cfg ctx.dontrun m mf) st2 with
      | stop o st3 =>
        rw [hc] at hC
        exact stepOK_trans hR (stepOK_trans hP hC)
      | cont rc3 st3 =>
        rw [hc] at hC
        dsimp only [Flow.state] at hC
        dsimp only
        exact stepOK_trans hR (stepOK_trans hP (stepOK_trans hC
          (runFromUpdate_ok ctx args mf _ rc3 st3)))

/-! ## Evaluation lemmas under all-zero return codes -/

theorem allZero_headD {l : List Nat} (h : AllZero l) : l.headD 0 = 0 := by
  cases l with
  | nil => rfl
  | cons a t => exact h a (List.mem_cons_self a t)

theorem allZero_tail {l : List Nat} (h : AllZero l) : AllZero l.tail := by
  cases l with
  | nil => exact h
  | cons a t => exact fun c hc => h c (List.mem_cons_of_mem a hc)

theorem vboxRestoreStep_zero (cfg : Config) (st : St) (h : AllZero st.codes) :
    ∃ st', vboxRestoreStep cfg st = .cont 0 st' ∧ AllZero st'.codes ∧
      st'.errorCount = st.errorCount := by
  unfold vboxRestoreStep execute
  dsimp only
  rw [allZero_headD h]
  exact ⟨_, rfl, allZero_tail h, rfl⟩

theorem revertStage_zero (cfg : Config) (hv : Hypervisor) (nr : Bool) (st : St)
    (h : AllZero st.codes) :
    ∃ st', revertStage cfg hv nr st = .cont 0 st' ∧ AllZero st'.codes ∧
      st'.errorCount = st.errorCount := by
  unfold revertStage
  cases hv
  · dsimp only
    split
    · unfold execute
      dsimp only
      rw [allZero_headD h]
      exact ⟨_, rfl, allZero_tail h, rfl⟩
    · exact ⟨st, rfl, h, rfl⟩
  · dsimp only
    split
    · unfold execute
      dsimp only
      rw [allZero_headD h]
      exact vboxRestoreStep_zero cfg _ (allZero_tail h)
    · exact ⟨st, rfl, h, rfl⟩

theorem powerOnStage_zero (cfg : Config) (hv : Hypervisor) (st : St)
    (h : AllZero st.codes) :
    powerOnStage cfg hv st =
      .cont 0 ⟨st.codes.tail, st.errorCount, st.trace ++ [⟨.powerOn, startCmd cfg hv⟩]⟩ := by
  unfold powerOnStage execute
  dsimp only
  rw [allZero_headD h]
  rfl

theorem stageCopyStage_zero (cfg : Config) (hv : Hypervisor) (src dst : String)
    (st : St) (h : AllZero st.codes) :
    stageCopyStage cfg hv src dst st =
      .cont 0 ⟨st.codes.tail, st.errorCount,
        st.trace ++ [⟨.stageCopy, copyToGuestCmd cfg hv src dst⟩]⟩ := by
  unfold stageCopyStage execute
  dsimp only
  rw [allZero_headD h]
  rfl

theorem updateConfigStep_zero (cfg : Config) (hv : Hypervisor) (hostDir : String)
    (hc : Bool) (r : Nat × St) (hz : AllZero r.2.codes) (hr : r.1 = 0) :
    (updateConfigStep cfg hv hostDir hc r).1 = 0 ∧
      AllZero (updateConfigStep cfg hv hostDir hc r).2.codes := by
  unfold updateConfigStep
  split
  · exact ⟨allZero_headD hz, allZero_tail hz⟩
  · exact ⟨hr, hz⟩

theorem updateVtStep_zero (cfg : Config) (hv : Hypervisor) (hostDir : String)
    (hvt : Bool) (r : Nat × St) (hz : AllZero r.2.codes) (hr : r.1 = 0) :
    (updateVtStep cfg hv hostDir hvt r).1 = 0 ∧
      AllZero (updateVtStep cfg hv hostDir hvt r).2.codes := by
  unfold updateVtStep
  split
  · exact ⟨allZero_headD hz, allZero_tail hz⟩
  · exact ⟨hr, hz⟩

theorem updateStage_zero (cfg : Config) (hv : Hypervisor) (hostDir : String)
    (hs hc hvt du : Bool) (st : St) (h : AllZero st.codes)
    (hdu : du = true → hs = true) :
    ∃ st', updateStage cfg hv hostDir hs hc hvt du 0 st = .cont 0 st' ∧
      ∃ t, st'.trace = st.trace ++ t := by
  cases du
  · exact ⟨st, rfl, [], (List.append_nil _).symm⟩
  · have hs1 : hs = true := hdu rfl
    subst hs1
    have hcz := updateConfigStep_zero cfg hv hostDir hc
      (execute .updateCopyScript
        (copyToGuestCmd cfg hv (pyFormat (hostDir ++ "/Noriben.py") [cfg.vm_user])
          (guestScriptPath cfg)) st) (allZero_tail h) (allZero_headD h)
    have hvz := updateVtStep_zero cfg hv hostDir hvt _ hcz.2 hcz.1
    have hext := stepOK_trans
      (stepOK_execute (fun _ => True) .updateCopyScript
        (copyToGuestCmd cfg hv (pyFormat (hostDir ++ "/Noriben.py") [cfg.vm_user])
          (guestScriptPath cfg)) st trivial)
      (stepOK_trans (updateConfigStep_ok (fun _ => True) trivial cfg hv hostDir hc _)
        (updateVtStep_ok (fun _ => True) trivial cfg hv hostDir hvt _))
    obtain ⟨_, t, ht, _⟩ := hext
    refine ⟨_, ?_, t, ht⟩
    unfold updateStage
    dsimp only
    rw [hvz.1]
    rfl

/-! ## Lemmas about the batch loop -/

theorem processFiles_mono (ctx : Ctx) (args : Args) (tol : Nat) (samples : List Sample) :
    ∀ st : St, st.errorCount ≤ (processFiles ctx args tol samples st).2.errorCount := by
  induction samples with
  | nil => intro st; exact Nat.le_refl _
  | cons s rest ih =>
    intro st
    rw [processFiles]
    split
    · exact Nat.le_refl _
    · split
      · exact ih st
      · split
        · have hm := (run_file_ok ctx args s.magic s.name st).1
          cases hr : run_file ctx args s.magic s.name st with
          | mk o st' =>
            rw [hr] at hm
            cases o
            · exact hm
            · exact Nat.le_trans hm (ih st')
        · exact ih st

theorem processFiles_halt (ctx : Ctx) (args : Args) (tol : Nat) (s : Sample)
    (rest : List Sample) (st : St) (h : tol ≤ st.errorCount) :
    processFiles ctx args tol (s :: rest) st = (.exited 100, st) := by
  rw [processFiles]
  rw [if_pos h]

/-! ## Evaluation lemmas at an explicit head return code -/

theorem powerOnStage_cons_zero (cfg : Config) (hv : Hypervisor) (rest : List Nat)
    (ec : Nat) (tr : List Entry) :
    powerOnStage cfg hv ⟨0 :: rest, ec, tr⟩ =
      .cont 0 ⟨rest, ec, tr ++ [⟨.powerOn, startCmd cfg hv⟩]⟩ := rfl

theorem stageCopyStage_cons_zero (cfg : Config) (hv : Hypervisor) (src dst : String)
    (rest : List Nat) (ec : Nat) (tr : List Entry) :
    stageCopyStage cfg hv src dst ⟨0 :: rest, ec, tr⟩ =
      .cont 0 ⟨rest, ec, tr ++ [⟨.stageCopy, copyToGuestCmd cfg hv src dst⟩]⟩ := rfl

theorem bne_zero_of_ne {r : Nat} (h : r ≠ 0) : (r != 0) = true := by
  simpa using h

theorem powerOnStage_cons_fail (cfg : Config) (hv : Hypervisor) (r : Nat)
    (rest : List Nat) (ec : Nat) (tr : List Entry) (h1 : r ≠ 0)
    (h2 : ¬(r = 1 ∧ hv = Hypervisor.vbox)) :
    powerOnStage cfg hv ⟨r :: rest, ec, tr⟩ =
      .stop (.returned r) ⟨rest, ec + 1, tr ++ [⟨.powerOn, startCmd cfg hv⟩]⟩ := by
  have hin : (r == 1 && hv.isVbox) = false := by
    cases hv
    · simp [Hypervisor.isVbox]
    · simp only [Hypervisor.isVbox, Bool.and_true, beq_eq_false_iff_ne, ne_eq]
      exact fun hr => h2 ⟨hr, rfl⟩
  unfold powerOnStage execute
  dsimp only
  rw [show List.headD (r :: rest) 0 = r from rfl, bne_zero_of_ne h1, hin]
  rfl

theorem stageCopyStage_cons_fail (cfg : Config) (hv : Hypervisor) (src dst : String)
    (r : Nat) (rest : List Nat) (ec : Nat) (tr : List Entry) (h : r ≠ 0) :
    stageCopyStage cfg hv src dst ⟨r :: rest, ec, tr⟩ =
      .stop (.returned r) ⟨rest, ec + 1, tr ++ [⟨.stageCopy, copyToGuestCmd cfg hv src dst⟩]⟩ := by
  unfold stageCopyStage execute
  dsimp only
  rw [show List.headD (r :: rest) 0 = r from rfl, bne_zero_of_ne h]
  rfl

theorem detonateStep_cons_fail (cmd : String) (r : Nat) (rest : List Nat) (ec : Nat)
    (tr : List Entry) (h : r ≠ 0) :
    detonateStep cmd ⟨r :: rest, ec, tr⟩ =
      .stop (.returned r) ⟨rest, ec + 1, tr ++ [⟨.detonate, cmd⟩]⟩ := by
  unfold detonateStep execute
  dsimp only
  rw [show List.headD (r :: rest) 0 = r from rfl, bne_zero_of_ne h]
  rfl

theorem vboxRestoreStep_cons_fail (cfg : Config) (r : Nat) (rest : List Nat) (ec : Nat)
    (tr : List Entry) (h : r ≠ 0) :
    vboxRestoreStep cfg ⟨r :: rest, ec, tr⟩ =
      .stop (.exited r) ⟨rest, ec, tr ++ [⟨.restore, restoreCmdVbox cfg⟩]⟩ := by
  unfold vboxRestoreStep execute
  dsimp only
  rw [show List.headD (r :: rest) 0 = r from rfl, bne_zero_of_ne h]
  rfl

theorem stageCopyStage_state_trace (cfg : Config) (hv : Hypervisor) (src dst : String)
    (st : St) :
    (stageCopyStage cfg hv src dst st).state.trace =
      st.trace ++ [⟨.stageCopy, copyToGuestCmd cfg hv src dst⟩] := by
  unfold stageCopyStage execute bump
  dsimp only
  split <;> rfl

/-! ## String-level lemmas for command provenance -/

theorem strAppend_assoc (a b c : String) : a ++ b ++ c = a ++ (b ++ c) := by
  rcases a with ⟨la⟩
  rcases b with ⟨lb⟩
  rcases c with ⟨lc⟩
  show String.mk (la ++ lb ++ lc) = String.mk (la ++ (lb ++ lc))
  rw [List.append_assoc]

theorem usesBinary_append (bin r : String) : usesBinary bin (quo bin ++ r) := ⟨r, rfl⟩

theorem usesBinary_extend {bin a : String} (b : String) (h : usesBinary bin a) :
    usesBinary bin (a ++ b) := by
  obtain ⟨r, hr⟩ := h
  exact ⟨r ++ b, by rw [hr, strAppend_assoc]⟩

/-! ## Claim theorems -/

/-- C7: for a sample whose automatic execution is not suppressed, the derived
guest staging path ends in `.bat` when the type classification is the DOS
batch script class and in `.exe` otherwise, and the path depends only on the
base name of the sample (the host filename up to its first dot) and its type
classification. -/
theorem c7_staging_path :
    ∀ (cfg : Config) (magic mf : String),
      (containsStr magic "DOS batch" = true →
        hasSuffix ".bat" (stagingFilename cfg false magic mf)) ∧
      (containsStr magic "DOS batch" = false →
        hasSuffix ".exe" (stagingFilename cfg false magic mf)) ∧
      (∀ (magic' mf' : String), hostMalwareNameBase mf = hostMalwareNameBase mf' →
        containsStr magic "DOS batch" = containsStr magic' "DOS batch" →
        stagingFilename cfg false magic mf = stagingFilename cfg false magic' mf') := by
  intro cfg magic mf
  refine ⟨?_, ?_, ?_⟩
  · intro h
    unfold stagingFilename
    dsimp only
    rw [h]
    exact ⟨cfg.guest_malware_path ++ hostMalwareNameBase mf, rfl⟩
  · intro h
    unfold stagingFilename
    dsimp only
    rw [h]
    exact ⟨cfg.guest_malware_path ++ hostMalwareNameBase mf, rfl⟩
  · intro magic' mf' hb hm
    unfold stagingFilename
    dsimp only
    rw [hb, hm]

/-- Witness for C7: `.bat` for a DOS batch classification, `.exe` for a PE32
classification, and equal staging paths for samples that agree on base name
and classification class. -/
theorem c7_staging_path_witness :
    hasSuffix ".bat" (stagingFilename cfg0 false "DOS batch file, ASCII text"
      "samples/s1.bin") ∧
    hasSuffix ".exe" (stagingFilename cfg0 false "PE32 executable (GUI)"
      "samples/s2.bin") ∧
    stagingFilename cfg0 false "PE32 executable (GUI)" "a/s3.x.y" =
      stagingFilename cfg0 false "PE32+ executable (console)" "b/s3.q" :=
  ⟨(c7_staging_path cfg0 "DOS batch file, ASCII text" "samples/s1.bin").1 (by decide),
   (c7_staging_path cfg0 "PE32 executable (GUI)" "samples/s2.bin").2.1 (by decide),
   (c7_staging_path cfg0 "PE32 executable (GUI)" "a/s3.x.y").2.2
     "PE32+ executable (console)" "b/s3.q" (by decide) (by decide)⟩

/-- C10: whenever the `dontrun` suppression flag is in effect, the derived
guest staging path is the guest malware directory joined with the bare base
name — no `.bat` or `.exe` appended — for every type classification. -/
theorem c10_dontrun_staging :
    ∀ (cfg : Config) (magic mf : String),
      stagingFilename cfg true magic mf = cfg.guest_malware_path ++ hostMalwareNameBase mf :=
  fun _ _ _ => rfl

/-- C2: the error count never decreases across the lifecycle of one sample or across
the batch loop, and once it has reached the configured tolerance the batch
loop enters no further sample (the state is returned untouched) and the
process exits with the distinct batch-abort code 100. -/
theorem c2_error_budget :
    (∀ (ctx : Ctx) (args : Args) (m mf : String) (st : St),
      st.errorCount ≤ (run_file ctx args m mf st).2.errorCount) ∧
    (∀ (ctx : Ctx) (args : Args) (tol : Nat) (samples : List Sample) (st : St),
      st.errorCount ≤ (processFiles ctx args tol samples st).2.errorCount) ∧
    (∀ (ctx : Ctx) (args : Args) (tol : Nat) (s : Sample) (rest : List Sample) (st : St),
      tol ≤ st.errorCount → processFiles ctx args tol (s :: rest) st = (.exited 100, st)) :=
  ⟨fun ctx args m mf st => (run_file_ok ctx args m mf st).1,
   fun ctx args tol samples st => processFiles_mono ctx args tol samples st,
   fun ctx args tol s rest st h => processFiles_halt ctx args tol s rest st h⟩

/-- Witness for C2: a batch whose error count already equals the tolerance is
aborted with exit code 100 before the pending sample is touched. -/
theorem c2_error_budget_witness :
    processFiles ctx0 args0 2 [⟨"a.exe", "PE32 executable", false⟩] ⟨[], 2, []⟩ =
      (.exited 100, ⟨[], 2, []⟩) :=
  c2_error_budget.2.2 ctx0 args0 2 ⟨"a.exe", "PE32 executable", false⟩ [] ⟨[], 2, []⟩
    (by decide)

/-- C5 (code bug): the post-exec line `Collect C:\secret.txt` matches the
collect keyword case-insensitively but yields no extractable path (the
case-sensitive split finds nothing), yet the interpreter still invokes the
collect-and-archive sequence — `copy_file_to_zip` issues its
`fileExistsInGuest` probe with the stale initial `source_path` (the empty
string) and the failed probe increments the error count, even though the
source prints "Ignoring bad script collect" for this line. -/
theorem c5_collect_malformed_still_invokes_archive :
    strStarts (lowerS "Collect C:\\secret.txt\n") "collect " = true ∧
    (splitOnS "collect " "Collect C:\\secret.txt\n").get? 1 = none ∧
    (runPostexec cfg0 (cmdBase cfg0 .vmw false) ["Collect C:\\secret.txt\n"] ""
        ⟨[1], 0, []⟩).trace =
      [⟨.postFileExists, fileExistsCmd cfg0 ""⟩] ∧
    (runPostexec cfg0 (cmdBase cfg0 .vmw false) ["Collect C:\\secret.txt\n"] ""
        ⟨[1], 0, []⟩).errorCount = 1 :=
  ⟨by decide, by decide, by decide, by decide⟩

/-- C6 counterexample: in directory mode a script-classified candidate (magic
containing "DOS batch") is *not* let through to the per-sample lifecycle — the
loop completes with the state untouched (no command issued), contradicting the
claim that script-classified files proceed. -/
theorem c6_type_filter_counterexample :
    containsStr "DOS batch file, ASCII text" "DOS batch" = true ∧
    processFiles ctx0 args0 10 [⟨"script1.bat", "DOS batch file, ASCII text", false⟩]
        ⟨[0, 0, 0], 0, []⟩ =
      (.completed, ⟨[0, 0, 0], 0, []⟩) :=
  ⟨by decide, by decide⟩

/-- C6 (amended): in directory mode, entry into the per-sample lifecycle is
decided exactly by the pre-filter "magic is non-empty, starts with `PE32`, and
does not contain `DLL`" — so only executable-classified files proceed, while
script-classified files (DOS batch) and every other classification are
skipped with a diagnostic. -/
theorem c6_type_filter_amended :
    (∀ (ctx : Ctx) (a : Args) (tol : Nat) (s : Sample) (rest : List Sample) (st : St),
      st.errorCount < tol →
      processFiles ctx { a with skip := false } tol (s :: rest) st =
        (if dirFilterAccepts s.magic then
          match run_file ctx { a with skip := false } s.magic s.name st with
          | (.exited c, st') => (.exited c, st')
          | (.returned _, st') => processFiles ctx { a with skip := false } tol rest st'
        else processFiles ctx { a with skip := false } tol rest st)) ∧
    dirFilterAccepts "PE32 executable (GUI) Intel 80386, for MS Windows" = true ∧
    dirFilterAccepts "DOS batch file, ASCII text" = false ∧
    dirFilterAccepts "PE32+ executable (DLL) (GUI) x86-64, for MS Windows" = false ∧
    dirFilterAccepts "" = false := by
  refine ⟨?_, by decide, by decide, by decide, by decide⟩
  intro ctx a tol s rest st h
  rw [processFiles]
  rw [if_neg (Nat.not_le.mpr h)]
  rfl

/-- Witness for the amended C6 theorem at a concrete accepted sample. -/
theorem c6_type_filter_witness :
    processFiles ctx0 args0 10 [⟨"mal.exe", "PE32 executable", false⟩] ⟨[], 0, []⟩ =
      (if dirFilterAccepts "PE32 executable" then
        match run_file ctx0 args0 "PE32 executable" "mal.exe" ⟨[], 0, []⟩ with
        | (.exited c, st') => (.exited c, st')
        | (.returned _, st') => processFiles ctx0 args0 10 [] st'
      else processFiles ctx0 args0 10 [] ⟨[], 0, []⟩) := by
  have h := (c6_type_filter_amended.1 ctx0 args0 10 ⟨"mal.exe", "PE32 executable", false⟩
    [] ⟨[], 0, []⟩ (by decide))
  exact h

/-- C3 counterexample: when the detonation command fails (code 7) in a run
that requested a screenshot and a shutdown, `run_file` returns immediately —
the trace ends at the detonation command, so the Collected zip, the archive
copy, the Screenshotted step and the Finalized step were all skipped, not just
PostProcessing. -/
theorem c3_detonation_failure_counterexample :
    (run_file ctx0 { args0 with screenshot := true, shutdown := true } "PE32 executable"
        "mal.exe" ⟨[0, 0, 7], 0, []⟩).1 = .returned 7 ∧
    ((run_file ctx0 { args0 with screenshot := true, shutdown := true } "PE32 executable"
        "mal.exe" ⟨[0, 0, 7], 0, []⟩).2.trace.map Entry.op) =
      [.powerOn, .stageCopy, .detonate] ∧
    (run_file ctx0 { args0 with screenshot := true, shutdown := true } "PE32 executable"
        "mal.exe" ⟨[0, 0, 7], 0, []⟩).2.errorCount = 1 :=
  ⟨by decide, by decide, by decide⟩

/-- C3 (amended): a Detonating failure increments the error count, returns the
failure code to the batch controller, and skips every later stage — not only
PostProcessing but also the Collected zip-and-copy, the optional
Screenshotted step and the optional Finalized step: the trace of the run ends with
the detonation command.  (The argument record is spelled out: revert skipped,
no update, no early exit, no raw-filter deletion; every other flag is free.) -/
theorem c3_detonation_failure_amended :
    ∀ (ctx : Ctx) (scr nl sd su sk : Bool) (p : Option String) (m mf : String) (r : Nat)
      (rest : List Nat) (ec : Nat) (tr : List Entry), r ≠ 0 →
      run_file ctx ⟨true, false, false, false, scr, nl, sd, su, sk, p⟩ m mf
          ⟨0 :: 0 :: r :: rest, ec, tr⟩ =
        (.returned r, ⟨rest, ec + 1, tr ++
          [⟨.powerOn, startCmd ctx.cfg ctx.hv⟩,
           ⟨.stageCopy, copyToGuestCmd ctx.cfg ctx.hv mf
             (stagingFilename ctx.cfg ctx.dontrun m mf)⟩,
           ⟨.detonate, detonateCmd ctx.cfg ctx.hv scr ctx.dontrun ctx.debug
             (stagingFilename ctx.cfg ctx.dontrun m mf)⟩]⟩) := by
  intro ctx scr nl sd su sk p m mf r rest ec tr h
  unfold run_file
  dsimp only
  rw [show revertStage ctx.cfg ctx.hv true ⟨0 :: 0 :: r :: rest, ec, tr⟩ =
      Flow.cont 0 ⟨0 :: 0 :: r :: rest, ec, tr⟩ from rfl]
  dsimp only
  rw [powerOnStage_cons_zero]
  dsimp only
  rw [stageCopyStage_cons_zero]
  dsimp only
  unfold runFromUpdate
  dsimp only
  rw [show updateStage ctx.cfg ctx.hv ctx.hostNoribenDir ctx.hostScriptExists
      ctx.hostConfigExists ctx.hostVtExists false 0
      ⟨r :: rest, ec, tr ++ [⟨.powerOn, startCmd ctx.cfg ctx.hv⟩] ++
        [⟨.stageCopy, copyToGuestCmd ctx.cfg ctx.hv mf
          (stagingFilename ctx.cfg ctx.dontrun m mf)⟩]⟩ =
      Flow.cont 0 ⟨r :: rest, ec, tr ++ [⟨.powerOn, startCmd ctx.cfg ctx.hv⟩] ++
        [⟨.stageCopy, copyToGuestCmd ctx.cfg ctx.hv mf
          (stagingFilename ctx.cfg ctx.dontrun m mf)⟩]⟩ from rfl]
  dsimp only
  rw [if_neg (show ¬(false = true) from Bool.false_ne_true)]
  rw [show (rawStep ctx.cfg false
      ⟨r :: rest, ec, tr ++ [⟨.powerOn, startCmd ctx.cfg ctx.hv⟩] ++
        [⟨.stageCopy, copyToGuestCmd ctx.cfg ctx.hv mf
          (stagingFilename ctx.cfg ctx.dontrun m mf)⟩]⟩ : St) =
      ⟨r :: rest, ec, tr ++ [⟨.powerOn, startCmd ctx.cfg ctx.hv⟩] ++
        [⟨.stageCopy, copyToGuestCmd ctx.cfg ctx.hv mf
          (stagingFilename ctx.cfg ctx.dontrun m mf)⟩]⟩ from rfl]
  rw [detonateStep_cons_fail _ _ _ _ _ h]
  simp [List.append_assoc]

/-- Witness for the amended C3 theorem at a concrete failing detonation. -/
theorem c3_detonation_failure_witness :
    run_file ctx0 ⟨true, false, false, false, false, false, false, false, false, none⟩
        "PE32 executable" "mal.exe" ⟨0 :: 0 :: 7 :: [], 0, []⟩ =
      (.returned 7, ⟨[], 0 + 1, [] ++
        [⟨.powerOn, startCmd ctx0.cfg ctx0.hv⟩,
         ⟨.stageCopy, copyToGuestCmd ctx0.cfg ctx0.hv "mal.exe"
           (stagingFilename ctx0.cfg ctx0.dontrun "PE32 executable" "mal.exe")⟩,
         ⟨.detonate, detonateCmd ctx0.cfg ctx0.hv false ctx0.dontrun ctx0.debug
           (stagingFilename ctx0.cfg ctx0.dontrun "PE32 executable" "mal.exe")⟩]⟩) :=
  c3_detonation_failure_amended ctx0 false false false false false none "PE32 executable"
    "mal.exe" 7 [] 0 [] (by decide)

/-- C4 counterexample: a non-zero code (5) from the revert of the primary backend
makes `run_file` call `sys.exit(5)` — the process terminates, the error count
is *not* incremented, and in directory mode the batch dies with the second
sample never attempted; the claim said the failure is returned to the batch
controller so later samples can still run. -/
theorem c4_revert_failure_counterexample :
    (run_file ctx0 { args0 with norevert := false } "PE32 executable" "mal.exe"
        ⟨[5], 0, []⟩).1 = .exited 5 ∧
    (run_file ctx0 { args0 with norevert := false } "PE32 executable" "mal.exe"
        ⟨[5], 0, []⟩).2.errorCount = 0 ∧
    processFiles ctx0 { args0 with norevert := false } 10
        [⟨"mal.exe", "PE32 executable", false⟩, ⟨"two.exe", "PE32 executable", false⟩]
        ⟨[5], 0, []⟩ =
      (.exited 5, ⟨[], 0, [⟨.revert, revertCmdVmw cfg0⟩]⟩) :=
  ⟨by decide, by decide, by decide⟩

/-- C4 (amended): a HardFailure at PowerOn or Stage increments the error count
and returns the failure code to the batch controller, which then moves on to
the remaining samples; a HardFailure at Revert — a non-zero code from the
primary revert, a secondary pre-revert power-off code other than 0 or 1, or a
secondary snapshot-restore failure — instead terminates the whole process with
that code (a `sys.exit`), without incrementing the error count. -/
theorem c4_hard_failure_amended :
    (∀ (cfg : Config) (hv : Hypervisor) (r : Nat) (rest : List Nat) (ec : Nat)
        (tr : List Entry), r ≠ 0 → ¬(r = 1 ∧ hv = Hypervisor.vbox) →
      powerOnStage cfg hv ⟨r :: rest, ec, tr⟩ =
        .stop (.returned r) ⟨rest, ec + 1, tr ++ [⟨.powerOn, startCmd cfg hv⟩]⟩) ∧
    (∀ (cfg : Config) (hv : Hypervisor) (src dst : String) (r : Nat) (rest : List Nat)
        (ec : Nat) (tr : List Entry), r ≠ 0 →
      stageCopyStage cfg hv src dst ⟨r :: rest, ec, tr⟩ =
        .stop (.returned r)
          ⟨rest, ec + 1, tr ++ [⟨.stageCopy, copyToGuestCmd cfg hv src dst⟩]⟩) ∧
    (∀ (ctx : Ctx) (a : Args) (m mf : String) (r : Nat) (rest : List Nat) (ec : Nat)
        (tr : List Entry), r ≠ 0 → ctx.hv = Hypervisor.vmw →
        ctx.cfg.vm_snapshot ≠ "NO_SNAPSHOT_SPECIFIED" →
      run_file ctx { a with norevert := false } m mf ⟨r :: rest, ec, tr⟩ =
        (.exited r, ⟨rest, ec, tr ++ [⟨.revert, revertCmdVmw ctx.cfg⟩]⟩)) ∧
    (∀ (ctx : Ctx) (a : Args) (m mf : String) (r : Nat) (rest : List Nat) (ec : Nat)
        (tr : List Entry), r ≠ 0 → r ≠ 1 → ctx.hv = Hypervisor.vbox →
        ctx.cfg.vm_snapshot ≠ "NO_SNAPSHOT_SPECIFIED" →
      run_file ctx { a with norevert := false } m mf ⟨r :: rest, ec, tr⟩ =
        (.exited r, ⟨rest, ec, tr ++ [⟨.poweroffPreRevert, poweroffCmdVbox ctx.cfg⟩]⟩)) ∧
    (∀ (ctx : Ctx) (a : Args) (m mf : String) (c0 r : Nat) (rest : List Nat) (ec : Nat)
        (tr : List Entry), (c0 = 0 ∨ c0 = 1) → r ≠ 0 → ctx.hv = Hypervisor.vbox →
        ctx.cfg.vm_snapshot ≠ "NO_SNAPSHOT_SPECIFIED" →
      run_file ctx { a with norevert := false } m mf ⟨c0 :: r :: rest, ec, tr⟩ =
        (.exited r, ⟨rest, ec, tr ++ [⟨.poweroffPreRevert, poweroffCmdVbox ctx.cfg⟩,
          ⟨.restore, restoreCmdVbox ctx.cfg⟩]⟩)) ∧
    (∀ (ctx : Ctx) (args : Args) (tol : Nat) (s : Sample) (rest : List Sample)
        (st st' : St) (c : Nat), st.errorCount < tol → args.skip = false →
        dirFilterAccepts s.magic = true →
      run_file ctx args s.magic s.name st = (.returned c, st') →
      processFiles ctx args tol (s :: rest) st = processFiles ctx args tol rest st') := by
  refine ⟨?_, ?_, ?_, ?_, ?_, ?_⟩
  · intro cfg hv r rest ec tr h1 h2
    exact powerOnStage_cons_fail cfg hv r rest ec tr h1 h2
  · intro cfg hv src dst r rest ec tr h
    exact stageCopyStage_cons_fail cfg hv src dst r rest ec tr h
  · intro ctx a m mf r rest ec tr h1 hhv hsnap
    unfold run_file revertStage
    rw [hhv]
    dsimp only
    have hcond : (!({ a with norevert := false }).norevert &&
        ctx.cfg.vm_snapshot != "NO_SNAPSHOT_SPECIFIED") = true := by
      simp only [Bool.not_false, Bool.true_and]
      simpa using hsnap
    rw [hcond]
    unfold execute
    dsimp only
    rw [show List.headD (r :: rest) 0 = r from rfl, bne_zero_of_ne h1]
    rfl
  · intro ctx a m mf r rest ec tr h0 h1 hhv hsnap
    unfold run_file revertStage
    rw [hhv]
    dsimp only
    have hcond : (!({ a with norevert := false }).norevert &&
        ctx.cfg.vm_snapshot != "NO_SNAPSHOT_SPECIFIED") = true := by
      simp only [Bool.not_false, Bool.true_and]
      simpa using hsnap
    rw [hcond]
    unfold execute
    dsimp only
    have hr1 : (r == 1) = false := by simpa using h1
    rw [show List.headD (r :: rest) 0 = r from rfl, hr1, bne_zero_of_ne h0]
    rfl
  · intro ctx a m mf c0 r rest ec tr hc0 h0 hhv hsnap
    unfold run_file revertStage
    rw [hhv]
    dsimp only
    have hcond : (!({ a with norevert := false }).norevert &&
        ctx.cfg.vm_snapshot != "NO_SNAPSHOT_SPECIFIED") = true := by
      simp only [Bool.not_false, Bool.true_and]
      simpa using hsnap
    rw [hcond]
    unfold execute
    dsimp only
    rw [show List.headD (c0 :: r :: rest) 0 = c0 from rfl]
    rw [show (c0 :: r :: rest).tail = r :: rest from rfl]
    rcases hc0 with h | h
    · subst h
      rw [vboxRestoreStep_cons_fail _ _ _ _ _ h0]
      simp [List.append_assoc]
    · subst h
      rw [vboxRestoreStep_cons_fail _ _ _ _ _ h0]
      simp [List.append_assoc]
  · intro ctx args tol s rest st st' c h1 h2 h3 h4
    rw [processFiles]
    rw [if_neg (Nat.not_le.mpr h1)]
    rw [h2]
    rw [if_neg (show ¬((false && s.reportExists) = true) by simp)]
    rw [if_pos h3]
    rw [h4]

/-- Witness for the amended C4 theorem: a power-on failure with code 9, a
stage failure with code 9, a primary revert failure with code 5, a secondary
pre-revert power-off failure with code 3, a secondary snapshot-restore
failure with code 6 after an already-off power-off (code 1), and batch
continuation after a returned per-sample failure. -/
theorem c4_hard_failure_witness :
    powerOnStage cfg0 .vmw ⟨9 :: [], 0, []⟩ =
      .stop (.returned 9) ⟨[], 0 + 1, [] ++ [⟨.powerOn, startCmd cfg0 .vmw⟩]⟩ ∧
    stageCopyStage cfg0 .vmw "mal.exe" "C:\\mal\\mal.exe" ⟨9 :: [], 0, []⟩ =
      .stop (.returned 9)
        ⟨[], 0 + 1, [] ++ [⟨.stageCopy, copyToGuestCmd cfg0 .vmw "mal.exe"
          "C:\\mal\\mal.exe"⟩]⟩ ∧
    run_file ctx0 { args0 with norevert := false } "PE32 executable" "mal.exe"
        ⟨5 :: [], 0, []⟩ =
      (.exited 5, ⟨[], 0, [] ++ [⟨.revert, revertCmdVmw ctx0.cfg⟩]⟩) ∧
    run_file { ctx0 with hv := .vbox } { args0 with norevert := false } "PE32 executable"
        "mal.exe" ⟨3 :: [], 0, []⟩ =
      (.exited 3, ⟨[], 0,
        [] ++ [⟨.poweroffPreRevert, poweroffCmdVbox ({ ctx0 with hv := .vbox } : Ctx).cfg⟩]⟩) ∧
    run_file { ctx0 with hv := .vbox } { args0 with norevert := false } "PE32 executable"
        "mal.exe" ⟨1 :: 6 :: [], 0, []⟩ =
      (.exited 6, ⟨[], 0,
        [] ++ [⟨.poweroffPreRevert, poweroffCmdVbox ({ ctx0 with hv := .vbox } : Ctx).cfg⟩,
          ⟨.restore, restoreCmdVbox ({ ctx0 with hv := .vbox } : Ctx).cfg⟩]⟩) ∧
    processFiles ctx0 args0 10 [⟨"mal.exe", "PE32 executable", false⟩] ⟨[0, 0, 4], 0, []⟩ =
      processFiles ctx0 args0 10 []
        (run_file ctx0 args0 "PE32 executable" "mal.exe" ⟨[0, 0, 4], 0, []⟩).2 :=
  ⟨c4_hard_failure_amended.1 cfg0 .vmw 9 [] 0 [] (by decide) (by decide),
   c4_hard_failure_amended.2.1 cfg0 .vmw "mal.exe" "C:\\mal\\mal.exe" 9 [] 0 [] (by decide),
   c4_hard_failure_amended.2.2.1 ctx0 args0 "PE32 executable" "mal.exe" 5 [] 0 []
     (by decide) rfl (by decide),
   c4_hard_failure_amended.2.2.2.1 { ctx0 with hv := .vbox } args0 "PE32 executable"
     "mal.exe" 3 [] 0 [] (by decide) (by decide) rfl (by decide),
   c4_hard_failure_amended.2.2.2.2.1 { ctx0 with hv := .vbox } args0 "PE32 executable"
     "mal.exe" 1 6 [] 0 [] (Or.inr rfl) (by decide) rfl (by decide),
   c4_hard_failure_amended.2.2.2.2.2 ctx0 args0 10 ⟨"mal.exe", "PE32 executable", false⟩ []
     ⟨[0, 0, 4], 0, []⟩ _ 4 (by decide) rfl (by decide) (by decide)⟩

/-- C8 counterexample: in a concrete secondary-backend (vbox) run with the
raw-filter deletion and the screenshot requested, the issued filter-deletion
and screenshot commands open with the quoted primary binary `"VMRUN"` — not
with the secondary binary `"VBOX"` — even though the selected backend of the run is vbox. -/
theorem c8_backend_dispatch_counterexample :
    cfg0.vmrun = "VMRUN" ∧ cfg0.vboxmanage = "VBOX" ∧
    ({ ctx0 with hv := .vbox } : Ctx).hv = .vbox ∧
    ((run_file { ctx0 with hv := .vbox } { args0 with raw := true, screenshot := true, nolog := true }
        "PE32 executable" "m.exe" ⟨[], 0, []⟩).2.trace.any
      (fun e => e.op == OpKind.deleteFilter && strStarts e.line "\"VMRUN\"")) = true ∧
    ((run_file { ctx0 with hv := .vbox } { args0 with raw := true, screenshot := true, nolog := true }
        "PE32 executable" "m.exe" ⟨[], 0, []⟩).2.trace.any
      (fun e => e.op == OpKind.screenshot && strStarts e.line "\"VMRUN\"")) = true ∧
    ((run_file { ctx0 with hv := .vbox } { args0 with raw := true, screenshot := true, nolog := true }
        "PE32 executable" "m.exe" ⟨[], 0, []⟩).2.trace.any
      (fun e => (e.op == OpKind.deleteFilter || e.op == OpKind.screenshot) &&
        strStarts e.line "\"VBOX\"")) = false :=
  ⟨rfl, rfl, rfl, by decide, by decide, by decide⟩

/-- Appending the empty string is the identity. -/
theorem strAppend_empty (s : String) : s ++ "" = s := by
  rcases s with ⟨l⟩
  show String.mk (l ++ []) = String.mk l
  rw [List.append_nil]

theorem usesBinary_quo (bin : String) : usesBinary bin (quo bin) :=
  ⟨"", (strAppend_empty _).symm⟩

/-- C8 (amended): in a secondary-backend run the revert sequence (power-off
and snapshot restore), the power-on, the host-to-guest copies and the
detonation command are issued through the secondary control binary
(`vboxmanage`), but the filter-file deletion, the guest-to-host archive copy,
the screenshot capture, the final power-off/suspend, and the post-exec
`fileExistsInGuest` probe are built with the primary backend binary
(`vmrun`) regardless of the selected backend. -/
theorem c8_backend_dispatch_amended :
    ∀ (cfg : Config) (shot dr dbg : Bool) (src dst fn p : String),
      usesBinary cfg.vboxmanage (poweroffCmdVbox cfg) ∧
      usesBinary cfg.vboxmanage (restoreCmdVbox cfg) ∧
      usesBinary cfg.vboxmanage (startCmd cfg .vbox) ∧
      usesBinary cfg.vboxmanage (copyToGuestCmd cfg .vbox src dst) ∧
      usesBinary cfg.vboxmanage (cmdBase cfg .vbox shot) ∧
      usesBinary cfg.vboxmanage (detonateCmd cfg .vbox shot dr dbg fn) ∧
      usesBinary cfg.vmrun (deleteFilterCmd cfg) ∧
      usesBinary cfg.vmrun (copyFromGuestCmd cfg p) ∧
      usesBinary cfg.vmrun (screenshotCmd cfg p) ∧
      usesBinary cfg.vmrun (stopCmd cfg) ∧
      usesBinary cfg.vmrun (suspendCmd cfg) ∧
      usesBinary cfg.vmrun (fileExistsCmd cfg fn) := by
  intro cfg shot dr dbg src dst fn p
  have hbase : usesBinary cfg.vboxmanage (cmdBase cfg .vbox shot) :=
    ⟨" guestcontrol " ++ cfg.vbox_uuid ++ " start --username " ++ cfg.vm_user ++
      " --password " ++ cfg.vm_pass, by simp only [cmdBase, quo, strAppend_assoc]⟩
  refine ⟨?_, ?_, ?_, ?_, hbase, ?_, ?_, ?_, ?_, ?_, ?_, ?_⟩
  · exact ⟨" controlvm " ++ cfg.vbox_uuid ++ " poweroff",
      by simp only [poweroffCmdVbox, quo, strAppend_assoc]⟩
  · exact ⟨" snapshot " ++ cfg.vbox_uuid ++ " restore " ++ quo (expanduser cfg.vm_snapshot),
      by simp only [restoreCmdVbox, quo, strAppend_assoc]⟩
  · exact ⟨" startvm " ++ cfg.vbox_uuid, by simp only [startCmd, quo, strAppend_assoc]⟩
  · exact ⟨" guestcontrol " ++ cfg.vbox_uuid ++ " copyto --username " ++ cfg.vm_user ++
      " --password " ++ cfg.vm_pass ++ " " ++ quo src ++ " " ++ quo dst,
      by simp only [copyToGuestCmd, quo, strAppend_assoc]⟩
  · unfold detonateCmd
    dsimp only
    split
    · split
      · iterate 13 apply usesBinary_extend
        exact hbase
      · iterate 10 apply usesBinary_extend
        exact hbase
    · split
      · iterate 12 apply usesBinary_extend
        exact hbase
      · iterate 9 apply usesBinary_extend
        exact hbase
  · exact ⟨" -T ws -gu " ++ cfg.vm_user ++ " -gp " ++ cfg.vm_pass ++ " deleteFileInGuest " ++
      expanduser cfg.vmx ++ " " ++ quo (pyFormat cfg.procmon_config_path [cfg.vm_user]),
      by simp only [deleteFilterCmd, quo, strAppend_assoc]⟩
  · exact ⟨" -gu " ++ cfg.vm_user ++ " -gp " ++ cfg.vm_pass ++ " copyFileFromGuestToHost " ++
      cfg.vmx ++ " " ++ quo cfg.guest_temp_zip ++ " " ++ quo p,
      by simp only [copyFromGuestCmd, quo, strAppend_assoc]⟩
  · exact ⟨" -gu " ++ cfg.vm_user ++ " -gp " ++ cfg.vm_pass ++ " captureScreen " ++ cfg.vmx ++
      " " ++ quo p, by simp only [screenshotCmd, quo, strAppend_assoc]⟩
  · exact ⟨" -T ws stop " ++ cfg.vmx, by simp only [stopCmd, quo, strAppend_assoc]⟩
  · exact ⟨" -T ws suspend " ++ cfg.vmx, by simp only [suspendCmd, quo, strAppend_assoc]⟩
  · exact ⟨" -gu " ++ cfg.vm_user ++ " -gp " ++ cfg.vm_pass ++ " fileExistsInGuest " ++
      expanduser cfg.vmx ++ " " ++ quo fn,
      by simp only [fileExistsCmd, quo, strAppend_assoc]⟩



/-- Helper for C9: with the `--dontrunanything` flag set, everything after a
successful staging copy stops at the early exit, so only `--update` copy
commands can still be issued. -/
theorem runFromUpdate_dra_ok (ctx : Ctx) (nr up raw scr nl sd su sk : Bool)
    (p : Option String) (mf fn : String) (rc : Nat) (st : St) :
    StepOK (fun o => o ∈ preDetOps) st
      (runFromUpdate ctx ⟨nr, up, true, raw, scr, nl, sd, su, sk, p⟩ mf fn rc st).2 := by
  unfold runFromUpdate
  have hU := updateStage_ok (fun o => o ∈ preDetOps) (by decide) (by decide) (by decide)
    ctx.cfg ctx.hv ctx.hostNoribenDir ctx.hostScriptExists ctx.hostConfigExists
    ctx.hostVtExists (⟨nr, up, true, raw, scr, nl, sd, su, sk, p⟩ : Args).update rc st
  cases hu : updateStage ctx.cfg ctx.hv ctx.hostNoribenDir ctx.hostScriptExists
      ctx.hostConfigExists ctx.hostVtExists
      (⟨nr, up, true, raw, scr, nl, sd, su, sk, p⟩ : Args).update rc st with
  | stop o st1 =>
    rw [hu] at hU
    exact hU
  | cont rc1 st1 =>
    rw [hu] at hU
    dsimp only [Flow.state] at hU
    dsimp only
    exact hU

/-- C1: when the power-on command reports the already-running status
code (1 for the secondary backend, as documented in the source; 0 for the
primary, modelled from the spec), the stage continues — same error count, no
abort — and, in a full run with revert skipped, the trace goes straight on to
the staging-copy command. -/
theorem c1_poweron_already_running :
    (∀ (hv : Hypervisor) (cfg : Config) (rest : List Nat) (ec : Nat) (tr : List Entry),
      powerOnStage cfg hv ⟨alreadyRunningCode hv :: rest, ec, tr⟩ =
        .cont (alreadyRunningCode hv) ⟨rest, ec, tr ++ [⟨.powerOn, startCmd cfg hv⟩]⟩) ∧
    (∀ (ctx : Ctx) (up dra raw scr nl sd su sk : Bool) (p : Option String) (m mf : String)
      (rest : List Nat) (ec : Nat) (tr : List Entry),
      ∃ t, (run_file ctx ⟨true, up, dra, raw, scr, nl, sd, su, sk, p⟩ m mf
          ⟨alreadyRunningCode ctx.hv :: rest, ec, tr⟩).2.trace =
        tr ++ ⟨.powerOn, startCmd ctx.cfg ctx.hv⟩ ::
          ⟨.stageCopy, copyToGuestCmd ctx.cfg ctx.hv mf
            (stagingFilename ctx.cfg ctx.dontrun m mf)⟩ :: t) := by
  have hpow : ∀ (hv : Hypervisor) (cfg : Config) (rest : List Nat) (ec : Nat)
      (tr : List Entry),
      powerOnStage cfg hv ⟨alreadyRunningCode hv :: rest, ec, tr⟩ =
        .cont (alreadyRunningCode hv) ⟨rest, ec, tr ++ [⟨.powerOn, startCmd cfg hv⟩]⟩ := by
    intro hv cfg rest ec tr
    cases hv <;> rfl
  refine ⟨hpow, ?_⟩
  intro ctx up dra raw scr nl sd su sk p m mf rest ec tr
  unfold run_file
  dsimp only
  rw [show revertStage ctx.cfg ctx.hv true ⟨alreadyRunningCode ctx.hv :: rest, ec, tr⟩ =
      Flow.cont 0 ⟨alreadyRunningCode ctx.hv :: rest, ec, tr⟩ from rfl]
  dsimp only
  rw [hpow]
  dsimp only
  have htr := stageCopyStage_state_trace ctx.cfg ctx.hv mf
    (stagingFilename ctx.cfg ctx.dontrun m mf)
    ⟨rest, ec, tr ++ [⟨.powerOn, startCmd ctx.cfg ctx.hv⟩]⟩
  cases hsc : stageCopyStage ctx.cfg ctx.hv mf (stagingFilename ctx.cfg ctx.dontrun m mf)
      ⟨rest, ec, tr ++ [⟨.powerOn, startCmd ctx.cfg ctx.hv⟩]⟩ with
  | stop o st3 =>
    rw [hsc] at htr
    dsimp only [Flow.state] at htr
    dsimp only
    refine ⟨[], ?_⟩
    rw [htr]
    simp [List.append_assoc]
  | cont rc3 st3 =>
    rw [hsc] at htr
    dsimp only [Flow.state] at htr
    dsimp only
    obtain ⟨_, t2, ht2, _⟩ := runFromUpdate_ok ctx ⟨true, up, dra, raw, scr, nl, sd, su, sk, p⟩
      mf (stagingFilename ctx.cfg ctx.dontrun m mf) rc3 st3
    refine ⟨t2, ?_⟩
    rw [ht2, htr]
    simp [List.append_assoc]

/-- C9: with `--dontrunanything` set, a run issues only revert, power-on,
staging-copy and `--update` copy commands — never the detonation command —
and when every issued command succeeds (and the host collector script exists
when an update was requested) the run stages the sample and terminates
successfully with `sys.exit(0)`. -/
theorem c9_dontrunanything_stages_only :
    ∀ (ctx : Ctx) (nr up raw scr nl sd su sk : Bool) (p : Option String) (m mf : String)
      (st : St),
      StepOK (fun o => o ∈ preDetOps) st
        (run_file ctx ⟨nr, up, true, raw, scr, nl, sd, su, sk, p⟩ m mf st).2 ∧
      (AllZero st.codes → (up = true → ctx.hostScriptExists = true) →
        (run_file ctx ⟨nr, up, true, raw, scr, nl, sd, su, sk, p⟩ m mf st).1 = .exited 0 ∧
        (⟨.stageCopy, copyToGuestCmd ctx.cfg ctx.hv mf
            (stagingFilename ctx.cfg ctx.dontrun m mf)⟩ : Entry) ∈
          (run_file ctx ⟨nr, up, true, raw, scr, nl, sd, su, sk, p⟩ m mf st).2.trace) := by
  intro ctx nr up raw scr nl sd su sk p m mf st
  constructor
  · unfold run_file
    dsimp only
    have hR := revertStage_ok (fun o => o ∈ preDetOps) (by decide) (by decide) (by decide)
      ctx.cfg ctx.hv nr st
    cases hr : revertStage ctx.cfg ctx.hv nr st with
    | stop o st1 =>
      rw [hr] at hR
      exact hR
    | cont rc1 st1 =>
      rw [hr] at hR
      dsimp only [Flow.state] at hR
      dsimp only
      have hP := powerOnStage_ok (fun o => o ∈ preDetOps) (by decide) ctx.cfg ctx.hv st1
      cases hp : powerOnStage ctx.cfg ctx.hv st1 with
      | stop o st2 =>
        rw [hp] at hP
        exact stepOK_trans hR hP
      | cont rc2 st2 =>
        rw [hp] at hP
        dsimp only [Flow.state] at hP
        dsimp only
        have hC := stageCopyStage_ok (fun o => o ∈ preDetOps) (by decide) ctx.cfg ctx.hv mf
          (stagingFilename ctx.cfg ctx.dontrun m mf) st2
        cases hc : stageCopyStage ctx.cfg ctx.hv mf
            (stagingFilename ctx.cfg ctx.dontrun m mf) st2 with
        | stop o st3 =>
          rw [hc] at hC
          exact stepOK_trans hR (stepOK_trans hP hC)
        | cont rc3 st3 =>
          rw [hc] at hC
          dsimp only [Flow.state] at hC
          dsimp only
          exact stepOK_trans hR (stepOK_trans hP (stepOK_trans hC
            (runFromUpdate_dra_ok ctx nr up raw scr nl sd su sk p mf _ rc3 st3)))
  · intro hz hus
    obtain ⟨st1, hrv, hz1, _⟩ := revertStage_zero ctx.cfg ctx.hv nr st hz
    have hpw := powerOnStage_zero ctx.cfg ctx.hv st1 hz1
    have hz2 : AllZero (⟨st1.codes.tail, st1.errorCount,
        st1.trace ++ [⟨.powerOn, startCmd ctx.cfg ctx.hv⟩]⟩ : St).codes :=
      allZero_tail hz1
    have hsc := stageCopyStage_zero ctx.cfg ctx.hv mf
      (stagingFilename ctx.cfg ctx.dontrun m mf)
      ⟨st1.codes.tail, st1.errorCount,
        st1.trace ++ [⟨.powerOn, startCmd ctx.cfg ctx.hv⟩]⟩ hz2
    have hz3 : AllZero (⟨st1.codes.tail.tail, st1.errorCount,
        (st1.trace ++ [⟨.powerOn, startCmd ctx.cfg ctx.hv⟩]) ++
          [⟨.stageCopy, copyToGuestCmd ctx.cfg ctx.hv mf
            (stagingFilename ctx.cfg ctx.dontrun m mf)⟩]⟩ : St).codes :=
      allZero_tail hz2
    obtain ⟨st4, hupd, t, ht⟩ := updateStage_zero ctx.cfg ctx.hv ctx.hostNoribenDir
      ctx.hostScriptExists ctx.hostConfigExists ctx.hostVtExists up
      ⟨st1.codes.tail.tail, st1.errorCount,
        (st1.trace ++ [⟨.powerOn, startCmd ctx.cfg ctx.hv⟩]) ++
          [⟨.stageCopy, copyToGuestCmd ctx.cfg ctx.hv mf
            (stagingFilename ctx.cfg ctx.dontrun m mf)⟩]⟩ hz3 hus
    have hrun : run_file ctx ⟨nr, up, true, raw, scr, nl, sd, su, sk, p⟩ m mf st =
        (.exited 0, st4) := by
      unfold run_file
      dsimp only
      rw [hrv]
      dsimp only
      rw [hpw]
      dsimp only
      rw [hsc]
      dsimp only
      unfold runFromUpdate
      dsimp only
      rw [hupd]
      dsimp only
      rfl
    rw [hrun]
    refine ⟨rfl, ?_⟩
    dsimp only
    rw [ht]
    dsimp only
    simp



/-- Witness for C9: a concrete all-successful `--dontrunanything` run stages
the sample and exits 0 having issued no detonation command. -/
theorem c9_dontrunanything_witness :
    StepOK (fun o => o ∈ preDetOps) ⟨[0, 0], 0, []⟩
      (run_file ctx0 ⟨true, false, true, false, false, false, false, false, false, none⟩
        "PE32 executable" "mal.exe" ⟨[0, 0], 0, []⟩).2 ∧
    (run_file ctx0 ⟨true, false, true, false, false, false, false, false, false, none⟩
        "PE32 executable" "mal.exe" ⟨[0, 0], 0, []⟩).1 = .exited 0 ∧
    (⟨.stageCopy, copyToGuestCmd ctx0.cfg ctx0.hv "mal.exe"
        (stagingFilename ctx0.cfg ctx0.dontrun "PE32 executable" "mal.exe")⟩ : Entry) ∈
      (run_file ctx0 ⟨true, false, true, false, false, false, false, false, false, none⟩
        "PE32 executable" "mal.exe" ⟨[0, 0], 0, []⟩).2.trace :=
  ⟨(c9_dontrunanything_stages_only ctx0 true false false false false false false false none
      "PE32 executable" "mal.exe" ⟨[0, 0], 0, []⟩).1,
   ((c9_dontrunanything_stages_only ctx0 true false false false false false false false none
      "PE32 executable" "mal.exe" ⟨[0, 0], 0, []⟩).2
     (by intro c hc; simp at hc; exact hc) (by decide)).1,
   ((c9_dontrunanything_stages_only ctx0 true false false false false false false false none
      "PE32 executable" "mal.exe" ⟨[0, 0], 0, []⟩).2
     (by intro c hc; simp at hc; exact hc) (by decide)).2⟩


end Noriben
